import Mathlib

/-!
Verification of the customer health scoring and recovery playbook engine
(`health_scoring_system.py`).  The Python data model and operations are
shallowly embedded below: numeric values become `ℚ`, timestamps become `Nat`,
Python dictionaries become association lists with insert-or-overwrite
semantics, and operations that can raise become `Except`/`Option` valued
functions.  The definitions follow the source line by line; theorems about
the frozen specification claims follow the definitions.
-/

namespace HealthScoring

/-- Health tiers (`HealthTier` enum, source lines 18-22). -/
inductive HealthTier
  | HEALTHY
  | AT_RISK
  | CRITICAL
  | RED_ALERT
deriving DecidableEq, Repr, BEq

/-- Playbook kinds (`PlaybookType` enum, source lines 24-29). -/
inductive PlaybookType
  | POST_INCIDENT_RECOVERY
  | ENGAGEMENT_REVIVAL
  | VALUE_ACCELERATION
  | CHURN_PREVENTION
  | TRUST_REBUILDING
deriving DecidableEq, Repr, BEq

/-- `.value` string of a playbook kind, as the Python enum values. -/
def playbookTypeValue : PlaybookType → String
  | .POST_INCIDENT_RECOVERY => "post_incident_recovery"
  | .ENGAGEMENT_REVIVAL => "engagement_revival"
  | .VALUE_ACCELERATION => "value_acceleration"
  | .CHURN_PREVENTION => "churn_prevention"
  | .TRUST_REBUILDING => "trust_rebuilding"

/-- `.value` string of a health tier, as the Python enum values. -/
def tierValue : HealthTier → String
  | .HEALTHY => "healthy"
  | .AT_RISK => "at_risk"
  | .CRITICAL => "critical"
  | .RED_ALERT => "red_alert"

/-- Action statuses (`ActionStatus` enum, source lines 31-35). -/
inductive ActionStatus
  | PENDING
  | IN_PROGRESS
  | COMPLETED
  | SKIPPED
deriving DecidableEq, Repr, BEq

/-- Core health metrics (`HealthMetrics` dataclass, source lines 37-44).
Floats are embedded as rationals; `calculated_at` is an abstract timestamp. -/
structure HealthMetrics where
  engagement_score : ℚ := 0
  value_realization_score : ℚ := 0
  relationship_health_score : ℚ := 0
  risk_indicators_score : ℚ := 0
  calculated_at : Nat := 0
deriving DecidableEq, Repr

/-- `HealthMetrics.calculate_composite_score` (source lines 46-65): the
weighted composite with inverted risk, clamped to [0, 100].  The Python float
weights 0.35/0.30/0.25/0.10 are the rationals 7/20, 3/10, 1/4, 1/10. -/
def HealthMetrics.calculate_composite_score (m : HealthMetrics) : ℚ :=
  let risk_contribution := (100 - m.risk_indicators_score) * (1/10)
  let composite :=
    m.engagement_score * (7/20) +
    m.value_realization_score * (3/10) +
    m.relationship_health_score * (1/4) +
    risk_contribution
  min 100 (max 0 composite)

/-- The tier step function used by `get_health_tier` (source lines 71-78). -/
def healthTierOfScore (score : ℚ) : HealthTier :=
  if 80 ≤ score then .HEALTHY
  else if 60 ≤ score then .AT_RISK
  else if 40 ≤ score then .CRITICAL
  else .RED_ALERT

/-- `HealthMetrics.get_health_tier` (source lines 67-78). -/
def HealthMetrics.get_health_tier (m : HealthMetrics) : HealthTier :=
  healthTierOfScore m.calculate_composite_score

/-- The `customer_data` dictionary consumed by the calculators: a bag of
optional named signals (`Dict[str, Any]` in the source).  A `none` field is a
missing dictionary key; `.get(key, default)` becomes `Option.getD`. -/
structure SignalBag where
  logins_per_week : Option ℚ := none
  features_used : Option ℚ := none
  total_available_features : Option ℚ := none
  support_satisfaction : Option ℚ := none
  office_hours_attendance_rate : Option ℚ := none
  help_articles_viewed : Option ℚ := none
  goals_achieved : Option ℚ := none
  total_goals_set : Option ℚ := none
  measured_roi : Option ℚ := none
  expected_roi : Option ℚ := none
  business_outcomes_achieved : Option ℚ := none
  days_to_first_value : Option ℚ := none
  target_days_to_value : Option ℚ := none
  nps_score : Option ℚ := none
  csat_score : Option ℚ := none
  trust_index : Option ℚ := none
  stakeholder_engagement_rate : Option ℚ := none
  avg_response_time_hours : Option ℚ := none
  contract_risk_level : Option ℚ := none
  payment_delays_count : Option ℚ := none
  competitive_evaluation : Option Bool := none
  usage_trend_30d : Option ℚ := none
  support_escalations_30d : Option ℚ := none
  key_contact_changes_90d : Option ℚ := none
deriving DecidableEq, Repr

/-- `HealthScoreCalculator.calculate_engagement_score` (source lines 161-192). -/
def calculate_engagement_score (customer_data : SignalBag) : ℚ :=
  let login_frequency := customer_data.logins_per_week.getD 0
  let login_score := min 30 ((login_frequency / 5) * 30)
  let features_used := customer_data.features_used.getD 0
  let total_features := customer_data.total_available_features.getD 10
  let adoption_rate := if 0 < total_features then features_used / total_features else 0
  let adoption_score := adoption_rate * 25
  let support_satisfaction := customer_data.support_satisfaction.getD 3
  let support_score := ((support_satisfaction - 1) / 4) * 20
  let office_hours_attendance := customer_data.office_hours_attendance_rate.getD 0
  let help_usage := customer_data.help_articles_viewed.getD 0
  let help_score := min 10 ((help_usage / 10) * 10)
  min 100 (login_score + adoption_score + support_score +
    office_hours_attendance * 15 + help_score)

/-- `HealthScoreCalculator.calculate_value_realization_score` (source lines
194-221).  The division `(days_to_first_value - target_days) / target_days`
is not guarded, so a zero `target_days_to_value` raises `ZeroDivisionError`
in Python; that failure is embedded as `none`. -/
def calculate_value_realization_score (customer_data : SignalBag) : Option ℚ :=
  let goals_achieved := customer_data.goals_achieved.getD 0
  let total_goals := customer_data.total_goals_set.getD 1
  let goal_rate := if 0 < total_goals then goals_achieved / total_goals else 0
  let actual_roi := customer_data.measured_roi.getD 0
  let expected_roi := customer_data.expected_roi.getD 1
  let roi_achievement := if 0 < expected_roi then min 1 (actual_roi / expected_roi) else 0
  let outcomes_tracked := customer_data.business_outcomes_achieved.getD 0
  let days_to_first_value := customer_data.days_to_first_value.getD 365
  let target_days := customer_data.target_days_to_value.getD 30
  if target_days = 0 then none
  else
    let time_score := max 0 (10 - ((days_to_first_value - target_days) / target_days) * 10)
    some (min 100 (goal_rate * 40 + roi_achievement * 30 +
      min 20 (outcomes_tracked * 5) + max 0 time_score))

/-- `HealthScoreCalculator.calculate_relationship_health_score` (source lines
223-257). -/
def calculate_relationship_health_score (customer_data : SignalBag) : ℚ :=
  let nps_score := customer_data.nps_score.getD 0
  let csat_score := customer_data.csat_score.getD 3
  let nps_normalized := (nps_score + 100) / 2
  let nps_contribution := (nps_normalized / 100) * 20
  let csat_normalized := ((csat_score - 1) / 4) * 100
  let csat_contribution := (csat_normalized / 100) * 15
  let trust_score := customer_data.trust_index.getD 5
  let trust_contribution := ((trust_score - 1) / 9) * 25
  let stakeholder_engagement := customer_data.stakeholder_engagement_rate.getD (1/2)
  let response_time_hours := customer_data.avg_response_time_hours.getD 48
  let responsiveness := max 0 (1 - ((response_time_hours - 24) / 24))
  min 100 (nps_contribution + csat_contribution + trust_contribution +
    stakeholder_engagement * 25 + responsiveness * 15)

/-- `HealthScoreCalculator.calculate_risk_indicators_score` (source lines
259-295). -/
def calculate_risk_indicators_score (customer_data : SignalBag) : ℚ :=
  let contract_risk_level := customer_data.contract_risk_level.getD 0
  let payment_delays := customer_data.payment_delays_count.getD 0
  let payment_risk := min 1 (payment_delays / 3)
  let competitive_activity := customer_data.competitive_evaluation.getD false
  let competitive_points : ℚ := if competitive_activity then 20 else 0
  let usage_trend := customer_data.usage_trend_30d.getD 0
  let usage_points : ℚ :=
    if usage_trend < -(1/5) then 15 else if usage_trend < -(1/10) then 10 else 0
  let escalations := customer_data.support_escalations_30d.getD 0
  let escalation_risk := min 1 (escalations / 3)
  let key_contact_turnover := customer_data.key_contact_changes_90d.getD 0
  let turnover_risk := min 1 (key_contact_turnover / 2)
  min 100 ((contract_risk_level / 5) * 25 + payment_risk * 20 + competitive_points +
    usage_points + escalation_risk * 10 + turnover_risk * 10)

/-- Customer profile (`CustomerProfile` dataclass, source lines 80-102). -/
structure CustomerProfile where
  customer_id : String
  name : String := ""
  segment : String := ""
  contract_value : ℚ := 0
  start_date : Nat := 0
  renewal_date : Nat := 0
  industry : String := ""
  primary_contact : List (String × String) := []
  success_manager : String := ""
  incident_impact_level : String := ""
  current_health : Option HealthMetrics := none
  health_history : List HealthMetrics := []
  is_post_incident : Bool := true
  last_engagement : Option Nat := none
  trust_rebuilding_required : Bool := true
  executive_escalation_required : Bool := false
deriving DecidableEq, Repr

/-- `HealthScoreCalculator.calculate_health_metrics` (source lines 297-328):
four sub-scores, the post-incident adjustment (relationship x1.5, risk x1.3)
then the enterprise adjustment (value x1.2, relationship x1.1), each result
clamped above at 100.  A `ZeroDivisionError` inside the value-realization
calculator propagates as `none`. -/
def calculate_health_metrics (customer : CustomerProfile) (customer_data : SignalBag)
    (now : Nat) : Option HealthMetrics :=
  match calculate_value_realization_score customer_data with
  | none => none
  | some value_realization0 =>
    let engagement := calculate_engagement_score customer_data
    let relationship0 := calculate_relationship_health_score customer_data
    let risk_indicators0 := calculate_risk_indicators_score customer_data
    let relationship1 :=
      if customer.is_post_incident then relationship0 * (3/2) else relationship0
    let risk_indicators1 :=
      if customer.is_post_incident then risk_indicators0 * (13/10) else risk_indicators0
    let value_realization1 :=
      if customer.segment == "enterprise" then value_realization0 * (6/5)
      else value_realization0
    let relationship2 :=
      if customer.segment == "enterprise" then relationship1 * (11/10) else relationship1
    some { engagement_score := min 100 engagement,
           value_realization_score := min 100 value_realization1,
           relationship_health_score := min 100 relationship2,
           risk_indicators_score := min 100 risk_indicators1,
           calculated_at := now }

/-- A value stored in a `success_metrics` / `success_criteria` dictionary
(`Any` in the source: booleans, numbers or strings appear). -/
inductive SMVal
  | b (v : Bool)
  | n (v : ℚ)
  | s (v : String)
deriving DecidableEq, Repr

/-- Individual playbook action (`PlaybookAction` dataclass, source lines
104-118). -/
structure PlaybookAction where
  action_id : String
  title : String := ""
  description : String := ""
  assigned_to : String := ""
  due_date : Nat := 0
  priority : String := ""
  estimated_effort_hours : Nat := 0
  dependencies : List String := []
  status : ActionStatus := .PENDING
  completion_date : Option Nat := none
  outcome_notes : String := ""
  success_metrics : List (String × SMVal) := []
deriving DecidableEq, Repr

/-- Recovery playbook (`RecoveryPlaybook` dataclass, source lines 120-144). -/
structure RecoveryPlaybook where
  playbook_id : String
  playbook_type : PlaybookType
  customer_id : String
  triggered_by : String := ""
  triggered_at : Nat := 0
  target_completion_date : Nat := 0
  objectives : List String := []
  success_criteria : List (String × SMVal) := []
  actions : List PlaybookAction := []
  status : String := "active"
  completion_percentage : ℚ := 0
  assigned_csm : String := ""
  executive_sponsor : Option String := none
  baseline_health_score : Option ℚ := none
  current_health_score : Option ℚ := none
  outcome_summary : String := ""
deriving DecidableEq, Repr

/-- `PlaybookLibrary.create_post_incident_recovery_playbook` (source lines
333-411).  `datetime.now()` is the abstract timestamp `now`; `timedelta`
offsets are whole days. -/
def create_post_incident_recovery_playbook (customer : CustomerProfile)
    (now : Nat) : RecoveryPlaybook :=
  let actions : List PlaybookAction := [
    { action_id := "pir_001", title := "Executive Apology Call",
      description := "Schedule and conduct executive-level apology call with customer leadership",
      assigned_to := "executive-team@company.com", due_date := now + 2,
      priority := "high", estimated_effort_hours := 2,
      success_metrics := [("call_completed", .b false), ("trust_score_impact", .n 0)] },
    { action_id := "pir_002", title := "Detailed Incident Post-Mortem Sharing",
      description := "Share comprehensive post-mortem with customer including prevention measures",
      assigned_to := customer.success_manager, due_date := now + 5,
      priority := "high", estimated_effort_hours := 4,
      success_metrics := [("post_mortem_shared", .b false), ("customer_feedback_received", .b false)] },
    { action_id := "pir_003", title := "Trust Rebuilding Sessions",
      description := "Conduct weekly trust rebuilding sessions with customer stakeholders",
      assigned_to := customer.success_manager, due_date := now + 28,
      priority := "medium", estimated_effort_hours := 16,
      success_metrics := [("sessions_completed", .n 0), ("trust_score_improvement", .n 0)] },
    { action_id := "pir_004", title := "Enhanced Monitoring Setup",
      description := "Implement customer-specific monitoring and alerting",
      assigned_to := "engineering-team@company.com", due_date := now + 7,
      priority := "high", estimated_effort_hours := 8,
      success_metrics := [("monitoring_implemented", .b false), ("customer_dashboard_access", .b false)] },
    { action_id := "pir_005", title := "Value Recovery Demonstration",
      description := "Demonstrate renewed value delivery through success metrics review",
      assigned_to := customer.success_manager, due_date := now + 14,
      priority := "medium", estimated_effort_hours := 6,
      success_metrics := [("value_demonstration_completed", .b false), ("roi_improvement_shown", .b false)] }]
  { playbook_id := "PIR-" ++ customer.customer_id ++ "-" ++ toString now,
    playbook_type := .POST_INCIDENT_RECOVERY,
    customer_id := customer.customer_id,
    triggered_by := "incident_impact",
    triggered_at := now,
    target_completion_date := now + 30,
    objectives := [
      "Restore customer trust and confidence",
      "Demonstrate commitment to reliability",
      "Strengthen relationship through transparency",
      "Prevent customer churn",
      "Position for future expansion"],
    success_criteria := [
      ("trust_score_target", .n 7),
      ("health_score_target", .n 75),
      ("renewal_probability_target", .n (17/20)),
      ("nps_improvement_target", .n 20)],
    actions := actions,
    assigned_csm := customer.success_manager }

/-- `PlaybookLibrary.create_engagement_revival_playbook` (source lines
413-479). -/
def create_engagement_revival_playbook (customer : CustomerProfile)
    (now : Nat) : RecoveryPlaybook :=
  let actions : List PlaybookAction := [
    { action_id := "er_001", title := "Usage Pattern Analysis",
      description := "Analyze customer usage patterns to identify engagement barriers",
      assigned_to := customer.success_manager, due_date := now + 3,
      priority := "high", estimated_effort_hours := 4,
      success_metrics := [("analysis_completed", .b false), ("barriers_identified", .n 0)] },
    { action_id := "er_002", title := "Personalized Training Program",
      description := "Design and deliver personalized training based on usage gaps",
      assigned_to := "training-team@company.com", due_date := now + 10,
      priority := "high", estimated_effort_hours := 12,
      success_metrics := [("training_sessions_delivered", .n 0), ("feature_adoption_increase", .n 0)] },
    { action_id := "er_003", title := "Champion Identification Program",
      description := "Identify and develop internal champions within customer organization",
      assigned_to := customer.success_manager, due_date := now + 14,
      priority := "medium", estimated_effort_hours := 8,
      success_metrics := [("champions_identified", .n 0), ("champion_training_completed", .b false)] },
    { action_id := "er_004", title := "Integration Optimization",
      description := "Optimize existing integrations and identify new integration opportunities",
      assigned_to := "technical-team@company.com", due_date := now + 21,
      priority := "medium", estimated_effort_hours := 16,
      success_metrics := [("integrations_optimized", .n 0), ("new_integrations_implemented", .n 0)] }]
  { playbook_id := "ER-" ++ customer.customer_id ++ "-" ++ toString now,
    playbook_type := .ENGAGEMENT_REVIVAL,
    customer_id := customer.customer_id,
    triggered_by := "low_engagement_score",
    triggered_at := now,
    target_completion_date := now + 28,
    objectives := [
      "Increase product engagement and adoption",
      "Improve user experience and satisfaction",
      "Develop internal champions",
      "Optimize workflow integration"],
    success_criteria := [
      ("engagement_score_target", .n 80),
      ("login_frequency_target", .n 5),
      ("feature_adoption_target", .n (7/10))],
    actions := actions,
    assigned_csm := customer.success_manager }

/-- Lookup in an insertion-ordered dictionary (Python `dict.get`): first
entry whose key matches. -/
def alistGet (k : String) : List (String × β) → Option β
  | [] => none
  | (k1, v) :: t => if k1 == k then some v else alistGet k t

/-- Assignment in an insertion-ordered dictionary (Python `d[k] = v`):
overwrite the entry holding `k`, or append a new entry. -/
def alistInsert (k : String) (v : β) : List (String × β) → List (String × β)
  | [] => [(k, v)]
  | (k1, w) :: t => if k1 == k then (k, v) :: t else (k1, w) :: alistInsert k v t

/-- Python `dict.update`: overwrite existing keys, append new ones in order. -/
def dictUpdate (base upd : List (String × SMVal)) : List (String × SMVal) :=
  upd.foldl (fun acc kv => alistInsert kv.1 kv.2 acc) base

/-- State of a `CustomerSuccessEngine` (source lines 484-496): the customer
registry, the playbook registry, and the stream of `logger.warning` messages
the engine has emitted. -/
structure EngineState where
  customers : List (String × CustomerProfile) := []
  active_playbooks : List (String × RecoveryPlaybook) := []
  warnings : List String := []
deriving DecidableEq, Repr

/-- A freshly constructed engine: empty registries. -/
def engineInit : EngineState := {}

/-- `CustomerSuccessEngine.add_customer` (source lines 498-501). -/
def add_customer (s : EngineState) (customer : CustomerProfile) : EngineState :=
  { s with customers := alistInsert customer.customer_id customer s.customers }

/-- `CustomerSuccessEngine._has_active_playbook` (source lines 560-567). -/
def has_active_playbook (s : EngineState) (customer_id : String)
    (pt : PlaybookType) : Bool :=
  s.active_playbooks.any (fun p =>
    p.2.customer_id == customer_id && p.2.playbook_type == pt && p.2.status == "active")

/-- `CustomerSuccessEngine._trigger_playbook` (source lines 569-589): build
the template playbook, snapshot the baseline composite if the customer has a
current health, and register the playbook; unimplemented kinds log a warning
and return without touching the registries. -/
def trigger_playbook (s : EngineState) (customer : CustomerProfile)
    (playbook_type : PlaybookType) (now : Nat) : EngineState :=
  match playbook_type with
  | .POST_INCIDENT_RECOVERY =>
    let pb0 := create_post_incident_recovery_playbook customer now
    let pb := { pb0 with baseline_health_score :=
      customer.current_health.map (fun h => h.calculate_composite_score) }
    { s with active_playbooks := alistInsert pb.playbook_id pb s.active_playbooks }
  | .ENGAGEMENT_REVIVAL =>
    let pb0 := create_engagement_revival_playbook customer now
    let pb := { pb0 with baseline_health_score :=
      customer.current_health.map (fun h => h.calculate_composite_score) }
    { s with active_playbooks := alistInsert pb.playbook_id pb s.active_playbooks }
  | pt =>
    { s with warnings := s.warnings ++
      ["Playbook type " ++ playbookTypeValue pt ++ " not implemented yet"] }

/-- `CustomerSuccessEngine._escalate_to_executive` (source lines 591-598):
set the profile flag and log a warning. -/
def escalate_to_executive (customer : CustomerProfile) (reason : String) :
    CustomerProfile × String :=
  ({ customer with executive_escalation_required := true },
   "Executive escalation required for " ++ customer.name ++ ": " ++ reason)

/-- The guarded-trigger idiom of `_check_playbook_triggers`: trigger the
playbook only when no active playbook of that kind exists for the customer. -/
def ensure_playbook (s : EngineState) (customer : CustomerProfile)
    (playbook_type : PlaybookType) (now : Nat) : EngineState :=
  if has_active_playbook s customer.customer_id playbook_type then s
  else trigger_playbook s customer playbook_type now

/-- `CustomerSuccessEngine._check_playbook_triggers` (source lines 525-558):
the four guarded playbook rules, in source order, then the significant-drop
escalation.  Returns the updated registries/warnings and the (possibly
escalated) customer profile; the caller stores the profile back, mirroring
the in-place mutation of the Python object. -/
def check_playbook_triggers (s : EngineState) (customer : CustomerProfile)
    (previous_health : Option HealthMetrics) (new_health : HealthMetrics)
    (now : Nat) : EngineState × CustomerProfile :=
  let current_tier := new_health.get_health_tier
  let s1 :=
    if customer.is_post_incident && customer.trust_rebuilding_required then
      ensure_playbook s customer .POST_INCIDENT_RECOVERY now
    else s
  let s2 :=
    if current_tier == .CRITICAL || current_tier == .RED_ALERT then
      ensure_playbook s1 customer .CHURN_PREVENTION now
    else s1
  let s3 :=
    if new_health.engagement_score < 60 then
      ensure_playbook s2 customer .ENGAGEMENT_REVIVAL now
    else s2
  let s4 :=
    if new_health.value_realization_score < 50 then
      ensure_playbook s3 customer .VALUE_ACCELERATION now
    else s3
  match previous_health with
  | none => (s4, customer)
  | some ph =>
    let previous_score := ph.calculate_composite_score
    let current_score := new_health.calculate_composite_score
    if current_score < previous_score - 15 then
      let dropMsg := "Significant health drop for " ++ customer.name
      let esc := escalate_to_executive customer "significant_health_drop"
      ({ s4 with warnings := s4.warnings ++ [dropMsg, esc.2] }, esc.1)
    else (s4, customer)

/-- The failure modes of the engine operations: Python `ValueError(... not
found)` and `ZeroDivisionError`. -/
inductive EngineErr
  | notFound (msg : String)
  | zeroDivision
deriving DecidableEq, Repr

/-- `CustomerSuccessEngine.update_customer_health` (source lines 503-523):
look the customer up (raising NotFound otherwise), compute the new metrics
(a `ZeroDivisionError` propagates), append them to the history, set
`current_health` and `last_engagement`, then run the trigger rules. -/
def update_customer_health (s : EngineState) (customer_id : String)
    (customer_data : SignalBag) (now : Nat) :
    Except EngineErr (EngineState × HealthMetrics) :=
  match alistGet customer_id s.customers with
  | none => .error (.notFound ("Customer " ++ customer_id ++ " not found"))
  | some customer =>
    match calculate_health_metrics customer customer_data now with
    | none => .error .zeroDivision
    | some new_health =>
      let previous_health := customer.current_health
      let customer1 := { customer with
        current_health := some new_health,
        health_history := customer.health_history ++ [new_health],
        last_engagement := some now }
      let s1 := { s with customers := alistInsert customer_id customer1 s.customers }
      let r := check_playbook_triggers s1 customer1 previous_health new_health now
      .ok ({ r.1 with customers := alistInsert customer_id r.2 r.1.customers }, new_health)

/-- `CustomerSuccessEngine._complete_playbook` (source lines 637-658): mark
the playbook completed; if the customer exists and has a current health,
snapshot the composite into `current_health_score`, and if a (truthy, i.e.
non-`None` and non-zero) baseline exists record the outcome summary.  The
Python code mutates the object held in the registry at `playbook_id`. -/
def complete_playbook (s : EngineState) (playbook_id : String)
    (playbook : RecoveryPlaybook) : EngineState :=
  let playbook1 := { playbook with status := "completed" }
  let playbook2 :=
    match alistGet playbook.customer_id s.customers with
    | none => playbook1
    | some customer =>
      match customer.current_health with
      | none => playbook1
      | some h =>
        let cur := h.calculate_composite_score
        let pb := { playbook1 with current_health_score := some cur }
        match pb.baseline_health_score with
        | none => pb
        | some baseline =>
          if baseline = 0 then pb
          else
            let improvement := cur - baseline
            { pb with outcome_summary :=
              "Health score improved by " ++ toString improvement ++ " points" }
  { s with active_playbooks := alistInsert playbook_id playbook2 s.active_playbooks }

/-- Replace the first action carrying `action_id` (Python mutates the first
match found by `next(...)`). -/
def updateFirstAction (action_id : String) (f : PlaybookAction → PlaybookAction) :
    List PlaybookAction → List PlaybookAction
  | [] => []
  | a :: t =>
    if a.action_id == action_id then f a :: t
    else a :: updateFirstAction action_id f t

/-- Completed-action fraction as a percentage, as recomputed by
`update_playbook_action` (source lines 628-629). -/
def derivedCompletion (actions : List PlaybookAction) : ℚ :=
  ((actions.countP (fun a => a.status == .COMPLETED) : ℚ) / (actions.length : ℚ)) * 100

/-- The per-action mutation performed by `update_playbook_action` (source
lines 618-625): set status and notes, stamp the completion date on
Completed, and merge the (truthy) extra metrics. -/
def apply_action_update (status : ActionStatus) (outcome_notes : String)
    (success_metrics : List (String × SMVal)) (now : Nat)
    (a : PlaybookAction) : PlaybookAction :=
  { a with
    status := status,
    outcome_notes := outcome_notes,
    completion_date := if status == .COMPLETED then some now else a.completion_date,
    success_metrics :=
      if success_metrics.isEmpty then a.success_metrics
      else dictUpdate a.success_metrics success_metrics }

/-- `CustomerSuccessEngine.update_playbook_action` (source lines 605-635):
NotFound for unknown playbook or action; otherwise update the action's
status, notes, completion timestamp and merged metrics (an empty metrics
argument, like Python `None` or `{}`, is falsy and merges nothing),
recompute the completion percentage, and complete the playbook at 100%. -/
def update_playbook_action (s : EngineState) (playbook_id action_id : String)
    (status : ActionStatus) (outcome_notes : String)
    (success_metrics : List (String × SMVal)) (now : Nat) :
    Except EngineErr EngineState :=
  match alistGet playbook_id s.active_playbooks with
  | none => .error (.notFound ("Playbook " ++ playbook_id ++ " not found"))
  | some playbook =>
    if playbook.actions.any (fun a => a.action_id == action_id) then
      let newActions := updateFirstAction action_id
        (apply_action_update status outcome_notes success_metrics now) playbook.actions
      let pct := derivedCompletion newActions
      let playbook1 := { playbook with actions := newActions, completion_percentage := pct }
      let s1 := { s with active_playbooks := alistInsert playbook_id playbook1 s.active_playbooks }
      if pct = 100 then .ok (complete_playbook s1 playbook_id playbook1) else .ok s1
    else
      .error (.notFound ("Action " ++ action_id ++ " not found in playbook " ++ playbook_id))

/-- Python `round(x, 2)` on the idealized rational value: round half to even
at two decimal places. -/
def pyRound2 (q : ℚ) : ℚ :=
  let x := q * 100
  let f : ℤ := ⌊x⌋
  let r := x - (f : ℚ)
  let z : ℤ :=
    if r < 1/2 then f
    else if 1/2 < r then f + 1
    else if f % 2 = 0 then f else f + 1
  (z : ℚ) / 100

/-- `recovery_metrics` block of the report (source lines 704-709). -/
structure RecoveryMetrics where
  average_health_improvement : ℚ
  customers_with_improvement : Nat
  customers_with_decline : Nat
  significant_improvements : Nat
deriving DecidableEq, Repr

/-- Per-playbook-type effectiveness entry (source lines 732-738). -/
structure PlaybookEffectiveness where
  total_triggered : Nat
  completed : Nat
  successful : Nat
  success_rate : ℚ
  avg_completion_percentage : ℚ
deriving DecidableEq, Repr

/-- The structured report returned by `generate_recovery_report` (source
lines 698-711). -/
structure RecoveryReport where
  report_generated_at : Nat
  total_customers : Nat
  post_incident_customers : Nat
  health_distribution : List (String × Nat)
  active_playbooks : Nat
  recovery_metrics : RecoveryMetrics
  playbook_effectiveness : List (String × PlaybookEffectiveness)
deriving DecidableEq, Repr

/-- The customers a report covers (source lines 663-666): the single looked
up customer, or every registered customer. -/
def selectedCustomers (s : EngineState) (customer_id : Option String) :
    List CustomerProfile :=
  match customer_id with
  | some cid =>
    match alistGet cid s.customers with
    | some c => [c]
    | none => []
  | none => s.customers.map (fun p => p.2)

/-- The health improvements collected by the report loop (source lines
677-690): only customers with a current health, flagged post-incident, and
with at least two history entries contribute `current - history[0]`. -/
def customerImprovements (customers : List CustomerProfile) : List ℚ :=
  customers.filterMap (fun c =>
    match c.current_health with
    | none => none
    | some cur =>
      if c.is_post_incident then
        if 2 ≤ c.health_history.length then
          match c.health_history with
          | h0 :: _ =>
            some (cur.calculate_composite_score - h0.calculate_composite_score)
          | [] => none
        else none
      else none)

/-- Python truthiness of an optional float: not `None` and non-zero. -/
def truthyOpt (o : Option ℚ) : Bool :=
  match o with
  | none => false
  | some x => decide (x ≠ 0)

/-- `CustomerSuccessEngine._calculate_playbook_effectiveness` (source lines
713-740): iterate the playbook kinds in enum order, skip kinds with no
playbooks, and compute completion and success statistics; `successful`
requires truthy current and baseline scores and `current > baseline`. -/
def calculate_playbook_effectiveness (s : EngineState) :
    List (String × PlaybookEffectiveness) :=
  [PlaybookType.POST_INCIDENT_RECOVERY, .ENGAGEMENT_REVIVAL, .VALUE_ACCELERATION,
   .CHURN_PREVENTION, .TRUST_REBUILDING].filterMap (fun pt =>
    let relevant := (s.active_playbooks.map (fun p => p.2)).filter
      (fun pb => pb.playbook_type == pt)
    if relevant.isEmpty then none
    else
      let completedPbs := relevant.filter (fun pb => pb.status == "completed")
      let successfulPbs := completedPbs.filter (fun pb =>
        truthyOpt pb.current_health_score && truthyOpt pb.baseline_health_score &&
          decide (pb.baseline_health_score.getD 0 < pb.current_health_score.getD 0))
      some (playbookTypeValue pt,
        { total_triggered := relevant.length,
          completed := completedPbs.length,
          successful := successfulPbs.length,
          success_rate :=
            if completedPbs.isEmpty then 0
            else (successfulPbs.length : ℚ) / (completedPbs.length : ℚ),
          avg_completion_percentage :=
            (relevant.map (fun pb => pb.completion_percentage)).sum / (relevant.length : ℚ) }))

/-- `CustomerSuccessEngine.generate_recovery_report` (source lines 660-711). -/
def generate_recovery_report (s : EngineState) (customer_id : Option String)
    (now : Nat) : RecoveryReport :=
  let customers := selectedCustomers s customer_id
  let improvements := customerImprovements customers
  let avg : ℚ :=
    if improvements.isEmpty then 0 else improvements.sum / (improvements.length : ℚ)
  { report_generated_at := now,
    total_customers := customers.length,
    post_incident_customers :=
      customers.countP (fun c => c.current_health.isSome && c.is_post_incident),
    health_distribution :=
      [HealthTier.HEALTHY, .AT_RISK, .CRITICAL, .RED_ALERT].map (fun t =>
        (tierValue t, customers.countP (fun c =>
          match c.current_health with
          | some h => h.get_health_tier == t
          | none => false))),
    active_playbooks := s.active_playbooks.countP (fun p => p.2.status == "active"),
    recovery_metrics := {
      average_health_improvement := pyRound2 avg,
      customers_with_improvement := improvements.countP (fun i => decide (0 < i)),
      customers_with_decline := improvements.countP (fun i => decide (i < 0)),
      significant_improvements := improvements.countP (fun i => decide (15 ≤ i)) },
    playbook_effectiveness := calculate_playbook_effectiveness s }

/-- A call to one of the engine's mutating public entry points. -/
inductive EngineOp
  | addCustomer (c : CustomerProfile)
  | updateHealth (customer_id : String) (data : SignalBag) (now : Nat)
  | updateAction (playbook_id action_id : String) (st : ActionStatus)
      (notes : String) (metrics : List (String × SMVal)) (now : Nat)

/-- Whether the operation is one of the two update entry points (as opposed
to customer registration). -/
def EngineOp.isUpdate : EngineOp → Bool
  | .addCustomer _ => false
  | _ => true

/-- Run one public operation; a raised exception leaves the state unchanged
(both operations raise before mutating anything). -/
def runOp (s : EngineState) : EngineOp → EngineState
  | .addCustomer c => add_customer s c
  | .updateHealth cid d now =>
    match update_customer_health s cid d now with
    | .ok r => r.1
    | .error _ => s
  | .updateAction pid aid st notes m now =>
    match update_playbook_action s pid aid st notes m now with
    | .ok s1 => s1
    | .error _ => s

/-- Run a sequence of public operations. -/
def runOps (s : EngineState) (ops : List EngineOp) : EngineState :=
  ops.foldl runOp s

/-! ## Range predicates for the documented signal ranges -/

/-- The optional signal, when present, is non-negative. -/
def optNonneg (o : Option ℚ) : Bool :=
  match o with
  | none => true
  | some x => decide (0 ≤ x)

/-- The optional signal, when present, lies in `[lo, hi]`. -/
def optBetween (lo hi : ℚ) (o : Option ℚ) : Bool :=
  match o with
  | none => true
  | some x => decide (lo ≤ x ∧ x ≤ hi)

/-- Every supplied signal lies in the range documented in the source
comments (counts on a 0-or-more scale, rates in [0,1], satisfaction 1-5,
NPS -100..100, trust 1-10, contract risk 0-5). -/
def signalsInDocRange (b : SignalBag) : Bool :=
  optNonneg b.logins_per_week && optNonneg b.features_used &&
  optNonneg b.total_available_features && optBetween 1 5 b.support_satisfaction &&
  optBetween 0 1 b.office_hours_attendance_rate && optNonneg b.help_articles_viewed &&
  optNonneg b.goals_achieved && optNonneg b.total_goals_set &&
  optNonneg b.measured_roi && optNonneg b.expected_roi &&
  optNonneg b.business_outcomes_achieved && optNonneg b.days_to_first_value &&
  optNonneg b.target_days_to_value && optBetween (-100) 100 b.nps_score &&
  optBetween 1 5 b.csat_score && optBetween 1 10 b.trust_index &&
  optBetween 0 1 b.stakeholder_engagement_rate && optNonneg b.avg_response_time_hours &&
  optBetween 0 5 b.contract_risk_level && optNonneg b.payment_delays_count &&
  optNonneg b.support_escalations_30d && optNonneg b.key_contact_changes_90d

lemma optNonneg_getD (d : ℚ) {o : Option ℚ} (h : optNonneg o = true) (hd : 0 ≤ d) :
    0 ≤ o.getD d := by
  cases o with
  | none => simpa using hd
  | some x => simpa [optNonneg] using h

lemma optBetween_getD (d : ℚ) {o : Option ℚ} {lo hi : ℚ} (h : optBetween lo hi o = true)
    (hd : lo ≤ d ∧ d ≤ hi) : lo ≤ o.getD d ∧ o.getD d ≤ hi := by
  cases o with
  | none => simpa using hd
  | some x => simpa [optBetween] using h

/-- Evaluation of the value-realization calculator when the effective
time-to-value target is zero: the division raises. -/
lemma value_score_eq_none {bag : SignalBag}
    (h : bag.target_days_to_value.getD 30 = 0) :
    calculate_value_realization_score bag = none := by
  unfold calculate_value_realization_score
  simp only [if_pos h]

/-- Evaluation of the value-realization calculator when the effective
time-to-value target is non-zero. -/
lemma value_score_eq_some {bag : SignalBag}
    (h : bag.target_days_to_value.getD 30 ≠ 0) :
    calculate_value_realization_score bag =
      some (min 100 (
        (if 0 < bag.total_goals_set.getD 1 then
          bag.goals_achieved.getD 0 / bag.total_goals_set.getD 1 else 0) * 40 +
        (if 0 < bag.expected_roi.getD 1 then
          min 1 (bag.measured_roi.getD 0 / bag.expected_roi.getD 1) else 0) * 30 +
        min 20 (bag.business_outcomes_achieved.getD 0 * 5) +
        max 0 (max 0 (10 -
          ((bag.days_to_first_value.getD 365 - bag.target_days_to_value.getD 30) /
            bag.target_days_to_value.getD 30) * 10)))) := by
  unfold calculate_value_realization_score
  simp only [if_neg h]

/-! ## C1, C2: composite score and tier boundaries -/

/-- C1: `calculate_composite_score` returns exactly
`min(100, max(0, e*0.35 + v*0.30 + r*0.25 + (100-k)*0.10))`; its value is
always in [0, 100]; and at sub-scores e = v = r = 90, k = 0 it is exactly
91. -/
theorem C1_composite_score_formula :
    (∀ m : HealthMetrics,
      m.calculate_composite_score =
        min 100 (max 0 (m.engagement_score * (7/20) + m.value_realization_score * (3/10) +
          m.relationship_health_score * (1/4) + (100 - m.risk_indicators_score) * (1/10))) ∧
      0 ≤ m.calculate_composite_score ∧ m.calculate_composite_score ≤ 100) ∧
    HealthMetrics.calculate_composite_score
      { engagement_score := 90, value_realization_score := 90,
        relationship_health_score := 90, risk_indicators_score := 0 } = 91 := by
  constructor
  · intro m
    refine ⟨rfl, le_min (by norm_num) (le_max_left _ _), min_le_left _ _⟩
  · norm_num [HealthMetrics.calculate_composite_score, min_def, max_def]

/-- C2: the tier step function sends a score `s` to Healthy iff 80 ≤ s, to
AtRisk iff 60 ≤ s < 80, to Critical iff 40 ≤ s < 60 and to RedAlert iff
s < 40, and `get_health_tier` is that step function applied to the composite
score. -/
theorem C2_health_tier_boundaries :
    (∀ s : ℚ,
      (healthTierOfScore s = .HEALTHY ↔ 80 ≤ s) ∧
      (healthTierOfScore s = .AT_RISK ↔ 60 ≤ s ∧ s < 80) ∧
      (healthTierOfScore s = .CRITICAL ↔ 40 ≤ s ∧ s < 60) ∧
      (healthTierOfScore s = .RED_ALERT ↔ s < 40)) ∧
    (∀ m : HealthMetrics, m.get_health_tier = healthTierOfScore m.calculate_composite_score) := by
  refine ⟨?_, fun m => rfl⟩
  intro s
  unfold healthTierOfScore
  split_ifs with h1 h2 h3 <;>
    refine ⟨?_, ?_, ?_, ?_⟩ <;> simp <;>
    first
      | linarith
      | (intro h; linarith)
      | (constructor <;> linarith)

/-! ## C6: sub-score ranges -/

/-- A signal bag whose only signal is a wildly out-of-range support
satisfaction. -/
def bagNegSupport : SignalBag := { support_satisfaction := some (-100) }

/-- C6 counterexample: with `support_satisfaction = -100` the engagement
score is -505, far outside [0, 100] — the support-quality component is not
clamped below (nor is any component other than login-frequency and
help-usage clamped at its cap). -/
theorem C6_counterexample :
    calculate_engagement_score bagNegSupport = -505 ∧
    ¬ (0 ≤ calculate_engagement_score bagNegSupport) := by
  have h : calculate_engagement_score bagNegSupport = -505 := by
    norm_num [calculate_engagement_score, bagNegSupport, min_def, max_def]
  exact ⟨h, by rw [h]; norm_num⟩

/-- C6 amended: every calculator clamps its final result above, so every
sub-score is at most 100 (the value-realization score whenever it returns at
all); a missing `support_satisfaction` is scored exactly as the neutral
3.0/5; but individual components are not independently clamped and scores
can drop below 0, so the lower bound 0 holds only when the supplied signals
lie in their documented ranges. -/
theorem C6_subscore_bounds_amended :
    (∀ bag : SignalBag,
      calculate_engagement_score bag ≤ 100 ∧
      calculate_relationship_health_score bag ≤ 100 ∧
      calculate_risk_indicators_score bag ≤ 100 ∧
      (∀ v, calculate_value_realization_score bag = some v → v ≤ 100)) ∧
    (∀ bag : SignalBag,
      calculate_engagement_score { bag with support_satisfaction := none } =
        calculate_engagement_score { bag with support_satisfaction := some 3 }) ∧
    (∀ bag : SignalBag, signalsInDocRange bag = true →
      0 ≤ calculate_engagement_score bag ∧
      0 ≤ calculate_relationship_health_score bag ∧
      0 ≤ calculate_risk_indicators_score bag ∧
      (∀ v, calculate_value_realization_score bag = some v → 0 ≤ v)) := by
  refine ⟨?_, ?_, ?_⟩
  · intro bag
    refine ⟨min_le_left _ _, min_le_left _ _, min_le_left _ _, ?_⟩
    intro v hv
    by_cases h : bag.target_days_to_value.getD 30 = 0
    · rw [value_score_eq_none h] at hv
      exact absurd hv (by simp)
    · rw [value_score_eq_some h, Option.some_inj] at hv
      rw [← hv]
      exact min_le_left _ _
  · intro bag
    rfl
  · intro bag h
    unfold signalsInDocRange at h
    simp only [Bool.and_eq_true] at h
    obtain ⟨⟨⟨⟨⟨⟨⟨⟨⟨⟨⟨⟨⟨⟨⟨⟨⟨⟨⟨⟨⟨hlogin, hfeat⟩, htot⟩, hsupp⟩, hoff⟩, hhelp⟩,
      hgoals⟩, htg⟩, hroi⟩, heroi⟩, hbus⟩, hdays⟩, htd⟩, hnps⟩, hcsat⟩, htrust⟩,
      hstake⟩, hresp⟩, hcontract⟩, hpay⟩, hesc⟩, hturn⟩ := h
    refine ⟨?_, ?_, ?_, ?_⟩
    · -- engagement lower bound
      unfold calculate_engagement_score
      have h1 := optNonneg_getD 0 hlogin le_rfl
      have h2 := optNonneg_getD 0 hfeat le_rfl
      have h3 := optBetween_getD 3 hsupp (by norm_num)
      have h4 := optBetween_getD 0 hoff (by norm_num)
      have h5 := optNonneg_getD 0 hhelp le_rfl
      refine le_min (by norm_num) ?_
      have hlogin0 : (0:ℚ) ≤ min 30 ((bag.logins_per_week.getD 0 / 5) * 30) :=
        le_min (by norm_num) (by positivity)
      have hado : (0:ℚ) ≤
          (if 0 < bag.total_available_features.getD 10 then
            bag.features_used.getD 0 / bag.total_available_features.getD 10 else 0) * 25 := by
        split
        · positivity
        · norm_num
      have hsup0 : (0:ℚ) ≤ ((bag.support_satisfaction.getD 3 - 1) / 4) * 20 := by
        have := h3.1; nlinarith
      have hoff0 : (0:ℚ) ≤ bag.office_hours_attendance_rate.getD 0 * 15 := by
        have := h4.1; nlinarith
      have hhelp0 : (0:ℚ) ≤ min 10 ((bag.help_articles_viewed.getD 0 / 10) * 10) :=
        le_min (by norm_num) (by positivity)
      linarith
    · -- relationship lower bound
      unfold calculate_relationship_health_score
      have h1 := optBetween_getD 0 hnps (by norm_num)
      have h2 := optBetween_getD 3 hcsat (by norm_num)
      have h3 := optBetween_getD 5 htrust (by norm_num)
      have h4 := optBetween_getD (1/2) hstake (by norm_num)
      refine le_min (by norm_num) ?_
      have hn : (0:ℚ) ≤ ((bag.nps_score.getD 0 + 100) / 2 / 100) * 20 := by
        have := h1.1; nlinarith
      have hc : (0:ℚ) ≤ (((bag.csat_score.getD 3 - 1) / 4 * 100) / 100) * 15 := by
        have := h2.1; nlinarith
      have ht : (0:ℚ) ≤ ((bag.trust_index.getD 5 - 1) / 9) * 25 := by
        have := h3.1; nlinarith
      have hs : (0:ℚ) ≤ bag.stakeholder_engagement_rate.getD (1/2) * 25 := by
        have := h4.1; nlinarith
      have hr : (0:ℚ) ≤
          max 0 (1 - ((bag.avg_response_time_hours.getD 48 - 24) / 24)) * 15 := by
        have : (0:ℚ) ≤ max 0 (1 - ((bag.avg_response_time_hours.getD 48 - 24) / 24)) :=
          le_max_left _ _
        nlinarith
      linarith
    · -- risk lower bound
      unfold calculate_risk_indicators_score
      have h1 := optBetween_getD 0 hcontract (by norm_num)
      have h2 := optNonneg_getD 0 hpay le_rfl
      have h3 := optNonneg_getD 0 hesc le_rfl
      have h4 := optNonneg_getD 0 hturn le_rfl
      refine le_min (by norm_num) ?_
      have hc : (0:ℚ) ≤ (bag.contract_risk_level.getD 0 / 5) * 25 := by
        have := h1.1; nlinarith
      have hp : (0:ℚ) ≤ min 1 (bag.payment_delays_count.getD 0 / 3) * 20 := by
        have : (0:ℚ) ≤ min 1 (bag.payment_delays_count.getD 0 / 3) :=
          le_min (by norm_num) (by positivity)
        nlinarith
      have hcomp : (0:ℚ) ≤
          (if bag.competitive_evaluation.getD false then (20:ℚ) else 0) := by
        split <;> norm_num
      have husage : (0:ℚ) ≤
          (if bag.usage_trend_30d.getD 0 < -(1/5) then (15:ℚ)
           else if bag.usage_trend_30d.getD 0 < -(1/10) then 10 else 0) := by
        split
        · norm_num
        · split <;> norm_num
      have he : (0:ℚ) ≤ min 1 (bag.support_escalations_30d.getD 0 / 3) * 10 := by
        have : (0:ℚ) ≤ min 1 (bag.support_escalations_30d.getD 0 / 3) :=
          le_min (by norm_num) (by positivity)
        nlinarith
      have hk : (0:ℚ) ≤ min 1 (bag.key_contact_changes_90d.getD 0 / 2) * 10 := by
        have : (0:ℚ) ≤ min 1 (bag.key_contact_changes_90d.getD 0 / 2) :=
          le_min (by norm_num) (by positivity)
        nlinarith
      linarith
    · -- value lower bound
      intro v hv
      have h1 := optNonneg_getD 0 hgoals le_rfl
      have h2 := optNonneg_getD 0 hroi le_rfl
      have h3 := optNonneg_getD 0 hbus le_rfl
      by_cases h : bag.target_days_to_value.getD 30 = 0
      · rw [value_score_eq_none h] at hv
        exact absurd hv (by simp)
      · rw [value_score_eq_some h, Option.some_inj] at hv
        rw [← hv]
        refine le_min (by norm_num) ?_
        have hg : (0:ℚ) ≤
            (if 0 < bag.total_goals_set.getD 1 then
              bag.goals_achieved.getD 0 / bag.total_goals_set.getD 1 else 0) * 40 := by
          split
          · positivity
          · norm_num
        have hr : (0:ℚ) ≤
            (if 0 < bag.expected_roi.getD 1 then
              min 1 (bag.measured_roi.getD 0 / bag.expected_roi.getD 1) else 0) * 30 := by
          split
          · rename_i hpos
            have : (0:ℚ) ≤ min 1 (bag.measured_roi.getD 0 / bag.expected_roi.getD 1) :=
              le_min (by norm_num) (div_nonneg h2 (le_of_lt hpos))
            nlinarith
          · norm_num
        have ho : (0:ℚ) ≤ min 20 (bag.business_outcomes_achieved.getD 0 * 5) :=
          le_min (by norm_num) (by positivity)
        have htv : (0:ℚ) ≤ max 0 (max 0
            (10 - ((bag.days_to_first_value.getD 365 - bag.target_days_to_value.getD 30) /
              bag.target_days_to_value.getD 30) * 10)) := le_max_left _ _
        linarith

/-- C6 witness: the all-defaults bag satisfies the range predicate and every
sub-score is then non-negative (and at most 100). -/
theorem C6_witness :
    signalsInDocRange ({} : SignalBag) = true ∧
    (0 ≤ calculate_engagement_score ({} : SignalBag) ∧
     0 ≤ calculate_relationship_health_score ({} : SignalBag) ∧
     0 ≤ calculate_risk_indicators_score ({} : SignalBag) ∧
     (∀ v, calculate_value_realization_score ({} : SignalBag) = some v → 0 ≤ v)) :=
  ⟨by decide, C6_subscore_bounds_amended.2.2 {} (by decide)⟩

/-! ## C7: graceful degradation of the calculators -/

/-- A bag whose only signal sets the time-to-value target to zero. -/
def bagZeroTarget : SignalBag := { target_days_to_value := some 0 }

/-- A concrete customer profile used by witnesses. -/
def custDemo : CustomerProfile :=
  { customer_id := "CUST-001", name := "TechCorp Enterprise",
    segment := "enterprise", success_manager := "csm-sarah@company.com" }

/-- C7 counterexample: `target_days_to_value = 0` makes the unguarded
division in `calculate_value_realization_score` raise (embedded as `none`),
and the failure propagates through `calculate_health_metrics` — the
calculators do not return normally on every input. -/
theorem C7_counterexample :
    calculate_value_realization_score bagZeroTarget = none ∧
    calculate_health_metrics custDemo bagZeroTarget 0 = none := by
  exact ⟨rfl, rfl⟩

/-- C7 amended: the engagement, relationship and risk calculators are total,
and the value-realization calculator (and hence `calculate_health_metrics`)
returns normally exactly when the effective `target_days_to_value`
(defaulting to 30 when missing) is non-zero; every other division in the
calculators is guarded. -/
theorem C7_totality_amended :
    ∀ (c : CustomerProfile) (bag : SignalBag) (now : Nat),
      ((calculate_value_realization_score bag).isSome ↔
        bag.target_days_to_value.getD 30 ≠ 0) ∧
      ((calculate_health_metrics c bag now).isSome ↔
        bag.target_days_to_value.getD 30 ≠ 0) := by
  intro c bag now
  have hv : (calculate_value_realization_score bag).isSome ↔
      bag.target_days_to_value.getD 30 ≠ 0 := by
    by_cases h : bag.target_days_to_value.getD 30 = 0 <;>
      simp [calculate_value_realization_score, h]
  refine ⟨hv, ?_⟩
  rcases hval : calculate_value_realization_score bag with _ | v
  · rw [hval] at hv
    simp only [Option.isSome_none, Bool.false_eq_true, false_iff, not_not] at hv
    simp [calculate_health_metrics, hval, hv]
  · rw [hval] at hv
    simp only [Option.isSome_some, true_iff] at hv
    simp [calculate_health_metrics, hval, hv]

/-- C7 witness: on the all-defaults bag the value calculator succeeds, with
the default target of 30. -/
theorem C7_witness :
    ((calculate_value_realization_score ({} : SignalBag)).isSome ↔
      ({} : SignalBag).target_days_to_value.getD 30 ≠ 0) :=
  (C7_totality_amended custDemo {} 0).1

/-! ## Association-list and invariant toolkit -/

instance : LawfulBEq PlaybookType where
  eq_of_beq := by intro a b h; cases a <;> cases b <;> first | rfl | exact absurd h (by decide)
  rfl := by intro a; cases a <;> decide

instance : LawfulBEq ActionStatus where
  eq_of_beq := by intro a b h; cases a <;> cases b <;> first | rfl | exact absurd h (by decide)
  rfl := by intro a; cases a <;> decide

instance : LawfulBEq HealthTier where
  eq_of_beq := by intro a b h; cases a <;> cases b <;> first | rfl | exact absurd h (by decide)
  rfl := by intro a; cases a <;> decide

lemma alistGet_insert_self (k : String) (v : β) (l : List (String × β)) :
    alistGet k (alistInsert k v l) = some v := by
  induction l with
  | nil => simp [alistGet, alistInsert]
  | cons hd tl ih =>
    obtain ⟨k1, w⟩ := hd
    by_cases h : k1 == k
    · simp [alistInsert, h, alistGet]
    · simp only [alistInsert, alistGet, h, Bool.false_eq_true, if_false, ih]

lemma alistGet_insert_ne (k kq : String) (v : β) (l : List (String × β))
    (h : (k == kq) = false) : alistGet kq (alistInsert k v l) = alistGet kq l := by
  induction l with
  | nil => simp [alistGet, alistInsert, h]
  | cons hd tl ih =>
    obtain ⟨k1, w⟩ := hd
    by_cases h1 : k1 == k
    · have hk : k1 = k := eq_of_beq h1
      subst hk
      simp [alistInsert, alistGet, h]
    · simp only [alistInsert, h1, Bool.false_eq_true, if_false, alistGet, ih]

lemma countP_alistInsert_le (p : String × β → Bool) (k : String) (v : β)
    (l : List (String × β)) :
    (alistInsert k v l).countP p ≤ l.countP p + (if p (k, v) then 1 else 0) := by
  induction l with
  | nil => simp [alistInsert, List.countP_cons]
  | cons hd tl ih =>
    obtain ⟨k1, w⟩ := hd
    by_cases h : k1 == k
    · simp only [alistInsert, h, if_true, List.countP_cons]
      omega
    · simp only [alistInsert, h, Bool.false_eq_true, if_false, List.countP_cons]
      omega

lemma countP_alistInsert_of_neg (p : String × β → Bool) (k : String) (v : β)
    (l : List (String × β)) (hp : p (k, v) = false) :
    (alistInsert k v l).countP p ≤ l.countP p := by
  have h := countP_alistInsert_le p k v l
  simp [hp] at h
  exact h

lemma countP_alistInsert_mono (p : String × β → Bool) (k : String) (v w : β)
    (l : List (String × β)) (hget : alistGet k l = some w)
    (himp : p (k, v) = true → p (k, w) = true) :
    (alistInsert k v l).countP p ≤ l.countP p := by
  induction l with
  | nil => simp [alistGet] at hget
  | cons hd tl ih =>
    obtain ⟨k1, w1⟩ := hd
    by_cases h : k1 == k
    · have hk : k1 = k := eq_of_beq h
      subst hk
      simp only [alistGet, beq_self_eq_true, if_true, Option.some_inj] at hget
      subst hget
      simp only [alistInsert, beq_self_eq_true, if_true, List.countP_cons]
      by_cases hv : p (k1, v) = true
      · rw [if_pos hv, if_pos (himp hv)]
      · rw [if_neg hv]
        split <;> omega
    · simp only [alistGet, h, Bool.false_eq_true, if_false] at hget
      simp only [alistInsert, h, Bool.false_eq_true, if_false, List.countP_cons]
      have := ih hget
      omega

/-- The predicate "this registry entry is an active playbook of kind `pt`
for customer `cid`" (the body of `_has_active_playbook`). -/
def activeFor (cid : String) (pt : PlaybookType) : String × RecoveryPlaybook → Bool :=
  fun p => p.2.customer_id == cid && p.2.playbook_type == pt && p.2.status == "active"

/-- Number of active playbooks of one kind for one customer. -/
def activeCount (s : EngineState) (cid : String) (pt : PlaybookType) : Nat :=
  s.active_playbooks.countP (activeFor cid pt)

/-- The registry invariant claimed by the specification: at most one Active
playbook per (customer, kind) pair. -/
def ActivePlaybookUnique (s : EngineState) : Prop :=
  ∀ cid pt, activeCount s cid pt ≤ 1

lemma activeFor_iff (cid : String) (pt : PlaybookType) (e : String × RecoveryPlaybook) :
    activeFor cid pt e = true ↔
      e.2.customer_id = cid ∧ e.2.playbook_type = pt ∧ e.2.status = "active" := by
  unfold activeFor
  simp [Bool.and_eq_true, and_assoc]

lemma has_active_playbook_iff (s : EngineState) (cid : String) (pt : PlaybookType) :
    has_active_playbook s cid pt = true ↔ activeCount s cid pt ≠ 0 := by
  unfold has_active_playbook activeCount activeFor
  rw [List.any_eq_true, Ne, List.countP_eq_zero]
  push_neg
  constructor
  · rintro ⟨x, hx, hp⟩; exact ⟨x, hx, hp⟩
  · rintro ⟨x, hx, hp⟩; exact ⟨x, hx, hp⟩

lemma has_active_playbook_false (s : EngineState) (cid : String) (pt : PlaybookType)
    (h : has_active_playbook s cid pt = false) : activeCount s cid pt = 0 := by
  by_contra hne
  have htrue : has_active_playbook s cid pt = true :=
    (has_active_playbook_iff s cid pt).2 hne
  rw [h] at htrue
  exact Bool.false_ne_true htrue

lemma activePlaybookUnique_insert (s : EngineState) (key : String)
    (pb : RecoveryPlaybook) (hU : ActivePlaybookUnique s)
    (h0 : activeCount s pb.customer_id pb.playbook_type = 0) :
    ∀ cid pt, (alistInsert key pb s.active_playbooks).countP (activeFor cid pt) ≤ 1 := by
  intro cid pt
  by_cases hmatch : cid = pb.customer_id ∧ pt = pb.playbook_type
  · obtain ⟨rfl, rfl⟩ := hmatch
    have hle := countP_alistInsert_le (activeFor pb.customer_id pb.playbook_type)
      key pb s.active_playbooks
    have hz : s.active_playbooks.countP (activeFor pb.customer_id pb.playbook_type) = 0 := h0
    rw [hz] at hle
    split at hle <;> omega
  · have hfalse : activeFor cid pt (key, pb) = false := by
      rw [Bool.eq_false_iff, Ne, activeFor_iff]
      rintro ⟨hc, ht, _⟩
      exact hmatch ⟨hc.symm, ht.symm⟩
    exact le_trans
      (countP_alistInsert_of_neg (activeFor cid pt) key pb s.active_playbooks hfalse)
      (hU cid pt)

lemma trigger_playbook_unique (s : EngineState) (c : CustomerProfile)
    (pt : PlaybookType) (now : Nat) (hU : ActivePlaybookUnique s)
    (hguard : has_active_playbook s c.customer_id pt = false) :
    ActivePlaybookUnique (trigger_playbook s c pt now) := by
  have h0 := has_active_playbook_false s c.customer_id pt hguard
  cases pt with
  | POST_INCIDENT_RECOVERY =>
    intro cid qt
    exact activePlaybookUnique_insert s _ _ hU h0 cid qt
  | ENGAGEMENT_REVIVAL =>
    intro cid qt
    exact activePlaybookUnique_insert s _ _ hU h0 cid qt
  | VALUE_ACCELERATION => exact hU
  | CHURN_PREVENTION => exact hU
  | TRUST_REBUILDING => exact hU

lemma ensure_playbook_unique (s : EngineState) (c : CustomerProfile)
    (pt : PlaybookType) (now : Nat) (hU : ActivePlaybookUnique s) :
    ActivePlaybookUnique (ensure_playbook s c pt now) := by
  unfold ensure_playbook
  split
  · exact hU
  · next h => exact trigger_playbook_unique s c pt now hU (by simpa using h)

lemma cond_ensure_unique (P : Prop) [Decidable P] (t : EngineState)
    (c : CustomerProfile) (pt : PlaybookType) (now : Nat)
    (hU : ActivePlaybookUnique t) :
    ActivePlaybookUnique (if P then ensure_playbook t c pt now else t) := by
  split
  · exact ensure_playbook_unique t c pt now hU
  · exact hU

lemma activePlaybookUnique_warnings (t : EngineState) (w : List String)
    (hU : ActivePlaybookUnique t) : ActivePlaybookUnique { t with warnings := w } := hU

lemma check_playbook_triggers_unique (s : EngineState) (c : CustomerProfile)
    (ph : Option HealthMetrics) (nh : HealthMetrics) (now : Nat)
    (hU : ActivePlaybookUnique s) :
    ActivePlaybookUnique (check_playbook_triggers s c ph nh now).1 := by
  cases ph with
  | none =>
    simp only [check_playbook_triggers]
    apply cond_ensure_unique
    apply cond_ensure_unique
    apply cond_ensure_unique
    apply cond_ensure_unique
    exact hU
  | some p =>
    simp only [check_playbook_triggers]
    split
    · apply activePlaybookUnique_warnings
      apply cond_ensure_unique
      apply cond_ensure_unique
      apply cond_ensure_unique
      apply cond_ensure_unique
      exact hU
    · apply cond_ensure_unique
      apply cond_ensure_unique
      apply cond_ensure_unique
      apply cond_ensure_unique
      exact hU

lemma complete_playbook_spec (s : EngineState) (pid : String) (pb : RecoveryPlaybook) :
    ∃ pb2, complete_playbook s pid pb =
      { s with active_playbooks := alistInsert pid pb2 s.active_playbooks } ∧
      pb2.status = "completed" ∧ pb2.customer_id = pb.customer_id ∧
      pb2.playbook_type = pb.playbook_type ∧ pb2.actions = pb.actions ∧
      pb2.completion_percentage = pb.completion_percentage := by
  unfold complete_playbook
  rcases h1 : alistGet pb.customer_id s.customers with _ | customer
  · simp only [h1]
    exact ⟨_, rfl, rfl, rfl, rfl, rfl, rfl⟩
  · simp only [h1]
    rcases h2 : customer.current_health with _ | hm
    · simp only [h2]
      exact ⟨_, rfl, rfl, rfl, rfl, rfl, rfl⟩
    · simp only [h2]
      rcases h3 : pb.baseline_health_score with _ | b
      · simp only [h3]
        exact ⟨_, rfl, rfl, rfl, rfl, rfl, rfl⟩
      · simp only [h3]
        by_cases hb : b = 0
        · simp only [if_pos hb]
          exact ⟨_, rfl, rfl, rfl, rfl, rfl, rfl⟩
        · simp only [if_neg hb]
          exact ⟨_, rfl, rfl, rfl, rfl, rfl, rfl⟩

lemma complete_playbook_unique (s : EngineState) (pid : String) (pb : RecoveryPlaybook)
    (hU : ActivePlaybookUnique s) : ActivePlaybookUnique (complete_playbook s pid pb) := by
  obtain ⟨pb2, heq, hstatus, -, -, -, -⟩ := complete_playbook_spec s pid pb
  rw [heq]
  intro cid qt
  refine le_trans (countP_alistInsert_of_neg _ _ _ _ ?_) (hU cid qt)
  rw [Bool.eq_false_iff, Ne, activeFor_iff]
  rintro ⟨-, -, hact⟩
  rw [hstatus] at hact
  exact absurd hact (by decide)

lemma update_playbook_action_unique (s : EngineState) (pid aid : String)
    (st : ActionStatus) (notes : String) (m : List (String × SMVal)) (now : Nat)
    (s1 : EngineState) (hU : ActivePlaybookUnique s)
    (h : update_playbook_action s pid aid st notes m now = .ok s1) :
    ActivePlaybookUnique s1 := by
  unfold update_playbook_action at h
  split at h
  · exact absurd h (by simp)
  · next pb hget =>
    split at h
    · dsimp only at h
      split at h <;> injection h with h <;> rw [← h]
      · -- completion branch
        apply complete_playbook_unique
        intro cid qt
        refine le_trans (countP_alistInsert_mono _ _ _ pb _ hget ?_) (hU cid qt)
        exact fun hp => hp
      · -- plain update branch
        intro cid qt
        refine le_trans (countP_alistInsert_mono _ _ _ pb _ hget ?_) (hU cid qt)
        exact fun hp => hp
    · exact absurd h (by simp)

lemma update_customer_health_unique (s : EngineState) (cid : String)
    (bag : SignalBag) (now : Nat) (r : EngineState × HealthMetrics)
    (hU : ActivePlaybookUnique s)
    (h : update_customer_health s cid bag now = .ok r) :
    ActivePlaybookUnique r.1 := by
  unfold update_customer_health at h
  split at h
  · exact absurd h (by simp)
  · split at h
    · exact absurd h (by simp)
    · injection h with h
      rw [← h]
      exact check_playbook_triggers_unique _ _ _ _ _ hU

lemma runOp_unique (s : EngineState) (op : EngineOp) (hU : ActivePlaybookUnique s) :
    ActivePlaybookUnique (runOp s op) := by
  cases op with
  | addCustomer c => exact hU
  | updateHealth cid d now =>
    unfold runOp
    rcases hres : update_customer_health s cid d now with e | r
    · simp only [hres]
      exact hU
    · simp only [hres]
      exact update_customer_health_unique s cid d now r hU hres
  | updateAction pid aid st notes m now =>
    unfold runOp
    rcases hres : update_playbook_action s pid aid st notes m now with e | s1
    · simp only [hres]
      exact hU
    · simp only [hres]
      exact update_playbook_action_unique s pid aid st notes m now s1 hU hres

lemma runOps_unique (ops : List EngineOp) :
    ∀ s : EngineState, ActivePlaybookUnique s → ActivePlaybookUnique (runOps s ops) := by
  induction ops with
  | nil => exact fun s hU => hU
  | cons op ops ih => exact fun s hU => ih (runOp s op) (runOp_unique s op hU)

/-! ## C3: at most one active playbook per (customer, kind) -/

/-- C3: from a fresh engine, any sequence of public operations leaves at most
one Active playbook per (customer id, playbook kind) pair; and running the
trigger evaluation twice with the same (profile, previous, new) never yields
two Active playbooks of the same kind for a customer, from any state already
satisfying the invariant. -/
theorem C3_at_most_one_active_playbook :
    (∀ ops : List EngineOp, ActivePlaybookUnique (runOps engineInit ops)) ∧
    (∀ (s : EngineState) (c : CustomerProfile) (ph : Option HealthMetrics)
       (nh : HealthMetrics) (now1 now2 : Nat), ActivePlaybookUnique s →
      ActivePlaybookUnique
        (check_playbook_triggers
          (check_playbook_triggers s c ph nh now1).1 c ph nh now2).1) := by
  constructor
  · intro ops
    exact runOps_unique ops engineInit (fun _ _ => Nat.zero_le 1)
  · intro s c ph nh now1 now2 hU
    exact check_playbook_triggers_unique _ c ph nh now2
      (check_playbook_triggers_unique s c ph nh now1 hU)

/-- C3 witness: evaluating the trigger rules twice from the fresh engine for
a concrete post-incident customer keeps the invariant. -/
theorem C3_witness :
    ActivePlaybookUnique
      (check_playbook_triggers
        (check_playbook_triggers engineInit custDemo none
          { engagement_score := 40, value_realization_score := 40,
            relationship_health_score := 40, risk_indicators_score := 40 } 0).1
        custDemo none
        { engagement_score := 40, value_realization_score := 40,
          relationship_health_score := 40, risk_indicators_score := 40 } 0).1 :=
  C3_at_most_one_active_playbook.2 engineInit custDemo none
    { engagement_score := 40, value_realization_score := 40,
      relationship_health_score := 40, risk_indicators_score := 40 } 0 0
    (fun _ _ => Nat.zero_le 1)

/-! ## C5: executive escalation on significant drops -/

/-- C5: with a previous health present, the escalation flag after the
trigger evaluation is the old flag OR-ed with "previous composite minus new
composite exceeds 15"; the escalation itself touches no playbook (the
playbook registry is exactly what the same evaluation without a previous
health produces); each qualifying drop re-fires (appending its two warnings
unconditionally, with no idempotency guard); and a drop of 15 or less (such
as 2 points) changes nothing. -/
theorem C5_executive_escalation :
    ∀ (s : EngineState) (c : CustomerProfile) (ph nh : HealthMetrics) (now : Nat),
      ((check_playbook_triggers s c (some ph) nh now).2.executive_escalation_required =
        (c.executive_escalation_required ||
          decide (15 < ph.calculate_composite_score - nh.calculate_composite_score))) ∧
      ((check_playbook_triggers s c (some ph) nh now).1.active_playbooks =
        (check_playbook_triggers s c none nh now).1.active_playbooks) ∧
      (15 < ph.calculate_composite_score - nh.calculate_composite_score →
        (check_playbook_triggers s c (some ph) nh now).1.warnings =
          (check_playbook_triggers s c none nh now).1.warnings ++
            ["Significant health drop for " ++ c.name,
             "Executive escalation required for " ++ c.name ++ ": " ++ "significant_health_drop"] ∧
        (check_playbook_triggers s c (some ph) nh now).2.executive_escalation_required = true) ∧
      (ph.calculate_composite_score - nh.calculate_composite_score ≤ 15 →
        check_playbook_triggers s c (some ph) nh now = check_playbook_triggers s c none nh now ∧
        (check_playbook_triggers s c (some ph) nh now).2 = c) := by
  intro s c ph nh now
  have hiff : (nh.calculate_composite_score < ph.calculate_composite_score - 15) ↔
      (15 < ph.calculate_composite_score - nh.calculate_composite_score) :=
    ⟨fun h => by linarith, fun h => by linarith⟩
  by_cases hc : nh.calculate_composite_score < ph.calculate_composite_score - 15
  · have hd : decide (15 < ph.calculate_composite_score - nh.calculate_composite_score) = true :=
      decide_eq_true (hiff.1 hc)
    refine ⟨?_, ?_, ?_, ?_⟩
    · simp only [check_playbook_triggers, if_pos hc, hd, Bool.or_true]
      rfl
    · simp only [check_playbook_triggers, if_pos hc]
    · intro _
      constructor
      · simp only [check_playbook_triggers, if_pos hc]
        rfl
      · simp only [check_playbook_triggers, if_pos hc]
        rfl
    · intro hle
      exact absurd hc (by linarith)
  · have hd : decide (15 < ph.calculate_composite_score - nh.calculate_composite_score) = false :=
      decide_eq_false (fun h => hc (hiff.2 h))
    refine ⟨?_, ?_, ?_, ?_⟩
    · simp only [check_playbook_triggers, if_neg hc, hd, Bool.or_false]
    · simp only [check_playbook_triggers, if_neg hc]
    · intro h15
      exact absurd (hiff.2 h15) hc
    · intro _
      exact ⟨by simp only [check_playbook_triggers, if_neg hc], by
        simp only [check_playbook_triggers, if_neg hc]⟩

/-- C5 witness: a drop from composite 70 to composite 50 sets the flag,
creates nothing, and logs the two warnings. -/
theorem C5_witness :
    ((check_playbook_triggers engineInit custDemo
        (some { engagement_score := 70, value_realization_score := 70,
                relationship_health_score := 70, risk_indicators_score := 30 })
        { engagement_score := 50, value_realization_score := 50,
          relationship_health_score := 50, risk_indicators_score := 50 } 0).2.executive_escalation_required =
      (custDemo.executive_escalation_required ||
        decide (15 <
          HealthMetrics.calculate_composite_score
            { engagement_score := 70, value_realization_score := 70,
              relationship_health_score := 70, risk_indicators_score := 30 } -
          HealthMetrics.calculate_composite_score
            { engagement_score := 50, value_realization_score := 50,
              relationship_health_score := 50, risk_indicators_score := 50 }))) :=
  (C5_executive_escalation engineInit custDemo
    { engagement_score := 70, value_realization_score := 70,
      relationship_health_score := 70, risk_indicators_score := 30 }
    { engagement_score := 50, value_realization_score := 50,
      relationship_health_score := 50, risk_indicators_score := 50 } 0).1

/-! ## C8: NotFound errors and unimplemented playbook kinds -/

/-- C8: `update_customer_health` raises NotFound exactly for unregistered
customers; `update_playbook_action` raises NotFound exactly for an unknown
playbook id or an unknown action id, and NotFound is its only failure mode;
and triggering any of the three template-less playbook kinds
(value-acceleration, churn-prevention, trust-rebuilding) leaves both
registries untouched, never fails, and records exactly one warning. -/
theorem C8_not_found_and_unimplemented :
    (∀ (s : EngineState) (cid : String) (d : SignalBag) (now : Nat),
      (∃ msg, update_customer_health s cid d now = .error (.notFound msg)) ↔
        alistGet cid s.customers = none) ∧
    (∀ (s : EngineState) (pid aid : String) (st : ActionStatus) (notes : String)
       (m : List (String × SMVal)) (now : Nat),
      ((∃ msg, update_playbook_action s pid aid st notes m now = .error (.notFound msg)) ↔
        (alistGet pid s.active_playbooks = none ∨
         ∃ pb, alistGet pid s.active_playbooks = some pb ∧
           pb.actions.any (fun a => a.action_id == aid) = false)) ∧
      (∀ e, update_playbook_action s pid aid st notes m now = .error e →
        ∃ msg, e = .notFound msg)) ∧
    (∀ (s : EngineState) (c : CustomerProfile) (now : Nat) (pt : PlaybookType),
      (pt = .VALUE_ACCELERATION ∨ pt = .CHURN_PREVENTION ∨ pt = .TRUST_REBUILDING) →
        (trigger_playbook s c pt now).customers = s.customers ∧
        (trigger_playbook s c pt now).active_playbooks = s.active_playbooks ∧
        (trigger_playbook s c pt now).warnings =
          s.warnings ++ ["Playbook type " ++ playbookTypeValue pt ++ " not implemented yet"]) := by
  refine ⟨?_, ?_, ?_⟩
  · intro s cid d now
    unfold update_customer_health
    rcases hget : alistGet cid s.customers with _ | customer
    · simp
    · simp only []
      rcases hm : calculate_health_metrics customer d now with _ | nh
      · simp
      · simp
  · intro s pid aid st notes m now
    unfold update_playbook_action
    rcases hget : alistGet pid s.active_playbooks with _ | pb
    · constructor
      · simp
      · intro e he
        simp only [Except.error.injEq] at he
        exact ⟨_, he.symm⟩
    · dsimp only
      by_cases hany : pb.actions.any (fun a => a.action_id == aid) = true
      · rw [if_pos hany]
        constructor
        · constructor
          · intro h
            obtain ⟨msg, hmsg⟩ := h
            split at hmsg <;> exact absurd hmsg (by simp)
          · rintro (h | ⟨pb1, hpb1, hfalse⟩)
            · exact absurd h (by simp)
            · rw [Option.some_inj] at hpb1
              rw [← hpb1] at hfalse
              rw [hany] at hfalse
              exact absurd hfalse (by simp)
        · intro e he
          split at he <;> exact absurd he (by simp)
      · rw [if_neg hany]
        have hfalse : pb.actions.any (fun a => a.action_id == aid) = false :=
          Bool.eq_false_iff.2 hany
        constructor
        · constructor
          · intro _
            exact Or.inr ⟨pb, rfl, hfalse⟩
          · intro _
            exact ⟨"Action " ++ aid ++ " not found in playbook " ++ pid, rfl⟩
        · intro e he
          simp only [Except.error.injEq] at he
          exact ⟨_, he.symm⟩
  · intro s c now pt h
    rcases h with rfl | rfl | rfl <;> exact ⟨rfl, rfl, rfl⟩

/-- C8 witness: on a fresh engine, updating an unknown customer raises
NotFound, and triggering the churn-prevention kind is a warning-logging
no-op. -/
theorem C8_witness :
    ((∃ msg, update_customer_health engineInit "CUST-001" {} 0 = .error (.notFound msg)) ↔
      alistGet "CUST-001" engineInit.customers = none) ∧
    ((trigger_playbook engineInit custDemo .CHURN_PREVENTION 0).customers =
        engineInit.customers ∧
      (trigger_playbook engineInit custDemo .CHURN_PREVENTION 0).active_playbooks =
        engineInit.active_playbooks ∧
      (trigger_playbook engineInit custDemo .CHURN_PREVENTION 0).warnings =
        engineInit.warnings ++
          ["Playbook type " ++ playbookTypeValue .CHURN_PREVENTION ++ " not implemented yet"]) :=
  ⟨C8_not_found_and_unimplemented.1 engineInit "CUST-001" {} 0,
   C8_not_found_and_unimplemented.2.2 engineInit custDemo 0 .CHURN_PREVENTION
     (Or.inr (Or.inl rfl))⟩

/-! ## C4: completion percentage bookkeeping -/

/-- Progress order of an action status along Pending, InProgress,
Completed (Skipped sits outside the progression). -/
def statusRank : ActionStatus → Nat
  | .PENDING => 0
  | .IN_PROGRESS => 1
  | .COMPLETED => 2
  | .SKIPPED => 3

lemma length_updateFirstAction (aid : String) (f : PlaybookAction → PlaybookAction)
    (l : List PlaybookAction) : (updateFirstAction aid f l).length = l.length := by
  induction l with
  | nil => rfl
  | cons hd tl ih =>
    by_cases hm : (hd.action_id == aid) = true
    · simp [updateFirstAction, hm]
    · simp [updateFirstAction, hm, ih]

lemma countP_updateFirstAction_ge (p : PlaybookAction → Bool) (aid : String)
    (f : PlaybookAction → PlaybookAction) (l : List PlaybookAction)
    (h : ∀ a, l.find? (fun x => x.action_id == aid) = some a →
      p a = true → p (f a) = true) :
    l.countP p ≤ (updateFirstAction aid f l).countP p := by
  induction l with
  | nil => simp [updateFirstAction]
  | cons hd tl ih =>
    by_cases hm : (hd.action_id == aid) = true
    · have hfind : (hd :: tl).find? (fun x => x.action_id == aid) = some hd :=
        List.find?_cons_of_pos _ hm
      have himp := h hd hfind
      simp only [updateFirstAction, hm, if_true, List.countP_cons]
      by_cases hp : p hd = true
      · rw [if_pos hp, if_pos (himp hp)]
      · rw [if_neg hp]
        split <;> omega
    · have hmf : (hd.action_id == aid) = false := Bool.eq_false_iff.2 hm
      have hfind : (hd :: tl).find? (fun x => x.action_id == aid) =
          tl.find? (fun x => x.action_id == aid) :=
        List.find?_cons_of_neg _ (by simp [hmf])
      simp only [updateFirstAction, hmf, Bool.false_eq_true, if_false, List.countP_cons]
      have := ih (fun a hf => h a (by rw [hfind]; exact hf))
      omega

lemma derivedCompletion_eq_100_iff (actions : List PlaybookAction)
    (hne : actions ≠ []) :
    derivedCompletion actions = 100 ↔ ∀ a ∈ actions, a.status = .COMPLETED := by
  have hlen0 : actions.length ≠ 0 := fun h => hne (List.length_eq_zero.1 h)
  have hlenq : ((actions.length : ℚ)) ≠ 0 := by exact_mod_cast hlen0
  unfold derivedCompletion
  constructor
  · intro h
    have h1 : ((actions.countP (fun a => a.status == .COMPLETED) : ℚ)) /
        (actions.length : ℚ) = 1 := by linarith
    have h2 : ((actions.countP (fun a => a.status == .COMPLETED) : ℚ)) =
        (actions.length : ℚ) := (div_eq_one_iff_eq hlenq).1 h1
    have h3 : actions.countP (fun a => a.status == .COMPLETED) = actions.length := by
      exact_mod_cast h2
    intro a ha
    exact eq_of_beq (List.countP_eq_length.1 h3 a ha)
  · intro h
    have h3 : actions.countP (fun a => a.status == .COMPLETED) = actions.length :=
      List.countP_eq_length.2 (fun a ha => by rw [h a ha]; rfl)
    rw [h3, div_self hlenq, one_mul]

lemma derivedCompletion_mono (l1 l2 : List PlaybookAction)
    (hlen : l2.length = l1.length)
    (hc : l1.countP (fun a => a.status == .COMPLETED) ≤
      l2.countP (fun a => a.status == .COMPLETED)) :
    derivedCompletion l1 ≤ derivedCompletion l2 := by
  unfold derivedCompletion
  rw [hlen]
  rcases Nat.eq_zero_or_pos l1.length with h0 | hpos
  · rw [h0]
    norm_num
  · have hposq : (0:ℚ) < (l1.length : ℚ) := by exact_mod_cast hpos
    have hcq : ((l1.countP (fun a => a.status == .COMPLETED) : ℚ)) ≤
        (l2.countP (fun a => a.status == .COMPLETED) : ℚ) := by exact_mod_cast hc
    apply mul_le_mul_of_nonneg_right _ (by norm_num : (0:ℚ) ≤ 100)
    exact (div_le_div_iff_of_pos_right hposq).2 hcq

/-- C4: after a successful `update_playbook_action`, the stored playbook's
completion percentage is exactly completed/total*100 over its actions; it is
100 iff every action is Completed; the status flips to "completed" exactly
when the recomputed percentage is 100; away from 100 the outcome fields are
untouched; and a Pending-to-InProgress-to-Completed forward move never
decreases a derivation-consistent percentage. -/
theorem C4_completion_percentage (s : EngineState) (pid aid : String)
    (st : ActionStatus) (notes : String) (m : List (String × SMVal)) (now : Nat)
    (pb : RecoveryPlaybook)
    (hget : alistGet pid s.active_playbooks = some pb)
    (hfound : pb.actions.any (fun a => a.action_id == aid) = true) :
    ∃ s1 pb1, update_playbook_action s pid aid st notes m now = .ok s1 ∧
      alistGet pid s1.active_playbooks = some pb1 ∧
      pb1.completion_percentage = derivedCompletion pb1.actions ∧
      (pb1.completion_percentage = 100 ↔ ∀ a ∈ pb1.actions, a.status = .COMPLETED) ∧
      pb1.status = (if pb1.completion_percentage = 100 then "completed" else pb.status) ∧
      (pb1.completion_percentage ≠ 100 →
        pb1.current_health_score = pb.current_health_score ∧
        pb1.outcome_summary = pb.outcome_summary) ∧
      (pb.completion_percentage = derivedCompletion pb.actions →
        (∀ a, pb.actions.find? (fun x => x.action_id == aid) = some a →
          statusRank a.status ≤ statusRank st ∧ a.status ≠ .SKIPPED ∧ st ≠ .SKIPPED) →
        pb.completion_percentage ≤ pb1.completion_percentage) := by
  have hnonempty : pb.actions ≠ [] := by
    obtain ⟨a, ha, -⟩ := List.any_eq_true.1 hfound
    intro h
    rw [h] at ha
    exact absurd ha (by simp)
  set newActions := updateFirstAction aid (apply_action_update st notes m now) pb.actions
    with hNA
  set pct := derivedCompletion newActions with hpctdef
  set playbook1 : RecoveryPlaybook :=
    { pb with actions := newActions, completion_percentage := pct } with hpb1
  set sIns : EngineState :=
    { s with active_playbooks := alistInsert pid playbook1 s.active_playbooks } with hsIns
  have hlen : newActions.length = pb.actions.length :=
    length_updateFirstAction aid _ pb.actions
  have hne2 : newActions ≠ [] := by
    intro h
    rw [h] at hlen
    exact hnonempty (List.length_eq_zero.1 hlen.symm)
  have hmono : pb.completion_percentage = derivedCompletion pb.actions →
      (∀ a, pb.actions.find? (fun x => x.action_id == aid) = some a →
        statusRank a.status ≤ statusRank st ∧ a.status ≠ .SKIPPED ∧ st ≠ .SKIPPED) →
      pb.completion_percentage ≤ pct := by
    intro hcons hforward
    rw [hcons]
    apply derivedCompletion_mono _ _ hlen
    apply countP_updateFirstAction_ge
    intro a hfind hp
    obtain ⟨hrank, hskipa, hskipst⟩ := hforward a hfind
    have hcomp : a.status = .COMPLETED := eq_of_beq hp
    rw [hcomp] at hrank
    have hst : st = .COMPLETED := by
      cases st with
      | PENDING => exact absurd hrank (by simp [statusRank])
      | IN_PROGRESS => exact absurd hrank (by simp [statusRank])
      | COMPLETED => rfl
      | SKIPPED => exact absurd rfl hskipst
    rw [show (apply_action_update st notes m now a).status = st from rfl, hst]
    rfl
  have heval : update_playbook_action s pid aid st notes m now =
      (if pct = 100 then .ok (complete_playbook sIns pid playbook1) else .ok sIns) := by
    unfold update_playbook_action
    simp only [hget]
    rw [if_pos hfound]
  by_cases hpct : pct = 100
  · rw [if_pos hpct] at heval
    obtain ⟨pb2, hcomp, hstatus, hcid, htype, hactions, hpctpb⟩ :=
      complete_playbook_spec sIns pid playbook1
    rw [hcomp] at heval
    refine ⟨_, pb2, heval, ?_, ?_, ?_, ?_, ?_, ?_⟩
    · exact alistGet_insert_self pid pb2 sIns.active_playbooks
    · rw [hpctpb, hactions]
    · rw [hpctpb, hactions]
      exact derivedCompletion_eq_100_iff newActions hne2
    · rw [hpctpb]
      rw [if_pos (show playbook1.completion_percentage = 100 from hpct)]
      exact hstatus
    · intro hne100
      exact absurd (hpctpb.trans hpct) hne100
    · intro hcons hforward
      rw [hpctpb]
      exact hmono hcons hforward
  · rw [if_neg hpct] at heval
    refine ⟨sIns, playbook1, heval, ?_, ?_, ?_, ?_, ?_, ?_⟩
    · exact alistGet_insert_self pid playbook1 s.active_playbooks
    · rfl
    · exact derivedCompletion_eq_100_iff newActions hne2
    · rw [if_neg (show ¬ playbook1.completion_percentage = 100 from hpct)]
    · intro _
      exact ⟨rfl, rfl⟩
    · exact hmono

/-- A two-action playbook used as a witness input: one action completed, one
pending, with a derivation-consistent completion percentage of 50. -/
def pbDemo : RecoveryPlaybook :=
  { playbook_id := "PB-1", playbook_type := .POST_INCIDENT_RECOVERY,
    customer_id := "CUST-001",
    actions := [{ action_id := "a1" }, { action_id := "a2", status := .COMPLETED }],
    completion_percentage := 50 }

/-- An engine state holding just `pbDemo`. -/
def sDemo4 : EngineState := { active_playbooks := [("PB-1", pbDemo)] }

/-- C4 witness: completing the pending action of `pbDemo` yields a stored
playbook whose percentage is its derivation, reaching 100 iff all actions
completed, flipping the status, with the forward-move monotonicity bound. -/
theorem C4_witness :
    ∃ s1 pb1, update_playbook_action sDemo4 "PB-1" "a1" .COMPLETED "" [] 0 = .ok s1 ∧
      alistGet "PB-1" s1.active_playbooks = some pb1 ∧
      pb1.completion_percentage = derivedCompletion pb1.actions ∧
      (pb1.completion_percentage = 100 ↔ ∀ a ∈ pb1.actions, a.status = .COMPLETED) ∧
      pb1.status = (if pb1.completion_percentage = 100 then "completed" else pbDemo.status) ∧
      (pb1.completion_percentage ≠ 100 →
        pb1.current_health_score = pbDemo.current_health_score ∧
        pb1.outcome_summary = pbDemo.outcome_summary) ∧
      (pbDemo.completion_percentage = derivedCompletion pbDemo.actions →
        (∀ a, pbDemo.actions.find? (fun x => x.action_id == "a1") = some a →
          statusRank a.status ≤ statusRank ActionStatus.COMPLETED ∧
          a.status ≠ .SKIPPED ∧ ActionStatus.COMPLETED ≠ .SKIPPED) →
        pbDemo.completion_percentage ≤ pb1.completion_percentage) :=
  C4_completion_percentage sDemo4 "PB-1" "a1" .COMPLETED "" [] 0 pbDemo rfl rfl

/-! ## C10: the escalation flag is never reset -/

/-- The customer is registered and carries a raised escalation flag. -/
def flagSetFor (s : EngineState) (cid : String) : Prop :=
  ∃ c, alistGet cid s.customers = some c ∧ c.executive_escalation_required = true

lemma trigger_playbook_customers (s : EngineState) (c : CustomerProfile)
    (pt : PlaybookType) (now : Nat) :
    (trigger_playbook s c pt now).customers = s.customers := by
  cases pt <;> rfl

lemma ensure_playbook_customers (s : EngineState) (c : CustomerProfile)
    (pt : PlaybookType) (now : Nat) :
    (ensure_playbook s c pt now).customers = s.customers := by
  unfold ensure_playbook
  split
  · rfl
  · exact trigger_playbook_customers s c pt now

lemma cond_ensure_customers (P : Prop) [Decidable P] (t : EngineState)
    (c : CustomerProfile) (pt : PlaybookType) (now : Nat) :
    (if P then ensure_playbook t c pt now else t).customers = t.customers := by
  split
  · exact ensure_playbook_customers t c pt now
  · rfl

lemma warnings_update_customers (t : EngineState) (w : List String) :
    ({ t with warnings := w } : EngineState).customers = t.customers := rfl

lemma check_playbook_triggers_customers (s : EngineState) (c : CustomerProfile)
    (ph : Option HealthMetrics) (nh : HealthMetrics) (now : Nat) :
    (check_playbook_triggers s c ph nh now).1.customers = s.customers := by
  cases ph with
  | none =>
    simp only [check_playbook_triggers]
    rw [cond_ensure_customers, cond_ensure_customers, cond_ensure_customers,
      cond_ensure_customers]
  | some p =>
    simp only [check_playbook_triggers]
    split
    · rw [warnings_update_customers, cond_ensure_customers, cond_ensure_customers,
        cond_ensure_customers, cond_ensure_customers]
    · rw [cond_ensure_customers, cond_ensure_customers, cond_ensure_customers,
        cond_ensure_customers]

lemma check_playbook_triggers_flag (s : EngineState) (c : CustomerProfile)
    (ph : Option HealthMetrics) (nh : HealthMetrics) (now : Nat)
    (hc : c.executive_escalation_required = true) :
    (check_playbook_triggers s c ph nh now).2.executive_escalation_required = true := by
  cases ph with
  | none => exact hc
  | some p =>
    simp only [check_playbook_triggers]
    split
    · rfl
    · exact hc

lemma update_customer_health_flag (s : EngineState) (cid0 cid : String)
    (bag : SignalBag) (now : Nat) (r : EngineState × HealthMetrics)
    (h : update_customer_health s cid bag now = .ok r)
    (hflag : flagSetFor s cid0) : flagSetFor r.1 cid0 := by
  obtain ⟨c0, hc0, hc0flag⟩ := hflag
  unfold update_customer_health at h
  split at h
  · exact absurd h (by simp)
  · next customer hcust =>
    split at h
    · exact absurd h (by simp)
    · next nh hnh =>
      injection h with h
      rw [← h]
      by_cases heq : (cid == cid0) = true
      · have hkeys : cid = cid0 := eq_of_beq heq
        subst hkeys
        rw [hcust] at hc0
        rw [Option.some_inj] at hc0
        refine ⟨_, alistGet_insert_self cid _ _, ?_⟩
        apply check_playbook_triggers_flag
        rw [← hc0] at hc0flag
        exact hc0flag
      · have hne : (cid == cid0) = false := Bool.eq_false_iff.2 heq
        refine ⟨c0, ?_, hc0flag⟩
        rw [alistGet_insert_ne cid cid0 _ _ hne]
        rw [check_playbook_triggers_customers]
        dsimp only
        rw [alistGet_insert_ne cid cid0 _ _ hne]
        exact hc0

lemma update_playbook_action_customers (s : EngineState) (pid aid : String)
    (st : ActionStatus) (notes : String) (m : List (String × SMVal)) (now : Nat)
    (s1 : EngineState) (h : update_playbook_action s pid aid st notes m now = .ok s1) :
    s1.customers = s.customers := by
  unfold update_playbook_action at h
  split at h
  · exact absurd h (by simp)
  · next pb hget =>
    split at h
    · dsimp only at h
      split at h <;> injection h with h <;> rw [← h]
      obtain ⟨pb2, hcomp, -, -, -, -, -⟩ := complete_playbook_spec _ pid _
      rw [hcomp]
    · exact absurd h (by simp)

lemma runOp_flag (s : EngineState) (op : EngineOp) (cid : String)
    (hop : op.isUpdate = true) (hflag : flagSetFor s cid) :
    flagSetFor (runOp s op) cid := by
  cases op with
  | addCustomer c => exact absurd hop (by simp [EngineOp.isUpdate])
  | updateHealth cid1 d now =>
    unfold runOp
    rcases hres : update_customer_health s cid1 d now with e | r
    · simp only [hres]
      exact hflag
    · simp only [hres]
      exact update_customer_health_flag s cid cid1 d now r hres hflag
  | updateAction pid aid st notes m now =>
    unfold runOp
    rcases hres : update_playbook_action s pid aid st notes m now with e | s1
    · simp only [hres]
      exact hflag
    · simp only [hres]
      obtain ⟨c0, hc0, hc0flag⟩ := hflag
      refine ⟨c0, ?_, hc0flag⟩
      rw [update_playbook_action_customers s pid aid st notes m now s1 hres]
      exact hc0

/-- C10: the engine never lowers `executive_escalation_required`: once the
flag is raised for a registered customer, any sequence of
`update_customer_health` / `update_playbook_action` calls (successful or
failing) leaves it raised; and `add_customer` stores exactly the
caller-supplied profile (the engine itself writes the flag only to True). -/
theorem C10_escalation_flag_monotone :
    (∀ (s : EngineState) (cid : String) (ops : List EngineOp),
      (∀ op ∈ ops, op.isUpdate = true) → flagSetFor s cid →
      flagSetFor (runOps s ops) cid) ∧
    (∀ (s : EngineState) (c : CustomerProfile),
      alistGet c.customer_id (add_customer s c).customers = some c) := by
  constructor
  · intro s cid ops
    induction ops generalizing s with
    | nil => exact fun _ hflag => hflag
    | cons op ops ih =>
      intro hall hflag
      exact ih (runOp s op) (fun o ho => hall o (List.mem_cons_of_mem op ho))
        (runOp_flag s op cid (hall op (List.mem_cons_self op ops)) hflag)
  · intro s c
    exact alistGet_insert_self c.customer_id c s.customers

/-- A registered customer with the escalation flag already raised. -/
def custFlagged : CustomerProfile :=
  { customer_id := "CUST-001", name := "TechCorp Enterprise",
    executive_escalation_required := true }

/-- C10 witness: after a concrete health update, the raised flag survives. -/
theorem C10_witness :
    flagSetFor (runOps { customers := [("CUST-001", custFlagged)] }
      [.updateHealth "CUST-001" {} 0]) "CUST-001" :=
  C10_escalation_flag_monotone.1 { customers := [("CUST-001", custFlagged)] }
    "CUST-001" [.updateHealth "CUST-001" {} 0]
    (fun op ho => by
      rcases List.mem_singleton.1 ho with rfl
      rfl)
    ⟨custFlagged, rfl, rfl⟩

/-! ## C9: recovery report aggregation -/

/-- Modelled from the spec: the claimed average-improvement formula, stated
for comparison with the code — the mean of (latest composite minus first
composite) over every customer with at least 2 health-history entries, 0
when there are none. -/
def claimedAverageImprovement (s : EngineState) : ℚ :=
  let imps := (s.customers.map (fun p => p.2)).filterMap (fun c =>
    if 2 ≤ c.health_history.length then
      match c.health_history.head?, c.health_history.getLast? with
      | some h0, some hl =>
        some (hl.calculate_composite_score - h0.calculate_composite_score)
      | _, _ => none
    else none)
  if imps.isEmpty then 0 else imps.sum / (imps.length : ℚ)

/-- Health metrics with composite score 50. -/
def mC9a : HealthMetrics :=
  { engagement_score := 50, value_realization_score := 50,
    relationship_health_score := 50, risk_indicators_score := 50 }

/-- Health metrics with composite score 70. -/
def mC9b : HealthMetrics :=
  { engagement_score := 70, value_realization_score := 70,
    relationship_health_score := 70, risk_indicators_score := 30 }

/-- A customer with two history entries (composites 50 then 70) but not
flagged post-incident. -/
def custNotPI : CustomerProfile :=
  { customer_id := "CUST-002", name := "MidSize Solutions",
    is_post_incident := false,
    current_health := some mC9b,
    health_history := [mC9a, mC9b] }

/-- The engine state holding only that customer. -/
def sC9 : EngineState := { customers := [("CUST-002", custNotPI)] }

lemma pyRound2_zero : pyRound2 0 = 0 := by
  norm_num [pyRound2]

/-- C9 counterexample: a customer with two history entries improving from 50
to 70 but with `is_post_incident = False` is skipped by the report loop, so
the report's average improvement is 0 while the claimed mean over all
customers with at least two entries is 20. -/
theorem C9_counterexample :
    (generate_recovery_report sC9 none 0).recovery_metrics.average_health_improvement = 0 ∧
    claimedAverageImprovement sC9 = 20 ∧
    (generate_recovery_report sC9 none 0).recovery_metrics.average_health_improvement ≠
      claimedAverageImprovement sC9 := by
  have h1 : (generate_recovery_report sC9 none 0).recovery_metrics.average_health_improvement =
      pyRound2 0 := rfl
  have h2 : claimedAverageImprovement sC9 = 20 := by
    have hstep : claimedAverageImprovement sC9 =
        (mC9b.calculate_composite_score - mC9a.calculate_composite_score + 0) /
          ((1 : ℕ) : ℚ) := rfl
    rw [hstep]
    norm_num [mC9a, mC9b, HealthMetrics.calculate_composite_score, min_def, max_def]
  refine ⟨h1.trans pyRound2_zero, h2, ?_⟩
  rw [h1.trans pyRound2_zero, h2]
  norm_num

/-- C9 amended: the report's average improvement is the rounded mean of
(current composite minus first-history composite) over the post-incident
customers having a current health and at least two history entries (0 when
there are none); and every per-type effectiveness entry satisfies
successful ≤ completed ≤ total with success_rate = successful/completed
when any playbook of the kind is completed and 0 otherwise, always within
[0, 1]. -/
theorem C9_report_amended :
    ∀ (s : EngineState) (filt : Option String) (now : Nat),
      ((generate_recovery_report s filt now).recovery_metrics.average_health_improvement =
        pyRound2 (
          if (customerImprovements (selectedCustomers s filt)).isEmpty then 0
          else (customerImprovements (selectedCustomers s filt)).sum /
            ((customerImprovements (selectedCustomers s filt)).length : ℚ))) ∧
      ((∀ c ∈ selectedCustomers s filt,
          ¬(c.current_health.isSome = true ∧ c.is_post_incident = true ∧
            2 ≤ c.health_history.length)) →
        (generate_recovery_report s filt now).recovery_metrics.average_health_improvement = 0) ∧
      (∀ e ∈ (generate_recovery_report s filt now).playbook_effectiveness,
        e.2.successful ≤ e.2.completed ∧
        e.2.completed ≤ e.2.total_triggered ∧
        (e.2.completed = 0 → e.2.success_rate = 0) ∧
        (e.2.completed ≠ 0 →
          e.2.success_rate = (e.2.successful : ℚ) / (e.2.completed : ℚ)) ∧
        (0 ≤ e.2.success_rate ∧ e.2.success_rate ≤ 1)) := by
  intro s filt now
  refine ⟨rfl, ?_, ?_⟩
  · intro h
    have hempty : customerImprovements (selectedCustomers s filt) = [] := by
      unfold customerImprovements
      rw [List.filterMap_eq_nil_iff]
      intro c hc
      have hnc := h c hc
      rcases hcur : c.current_health with _ | cur
      · rfl
      · dsimp only
        rcases hpi : c.is_post_incident with _ | _
        · simp
        · by_cases hlen : 2 ≤ c.health_history.length
          · exact absurd ⟨by rw [hcur]; rfl, hpi, hlen⟩ hnc
          · simp [hlen]
    have : (generate_recovery_report s filt now).recovery_metrics.average_health_improvement =
        pyRound2 (if (customerImprovements (selectedCustomers s filt)).isEmpty then (0:ℚ)
          else (customerImprovements (selectedCustomers s filt)).sum /
            ((customerImprovements (selectedCustomers s filt)).length : ℚ)) := rfl
    rw [this, hempty]
    exact pyRound2_zero
  · intro e he
    obtain ⟨pt, hpt, hfn⟩ := List.mem_filterMap.1 he
    dsimp only at hfn
    split at hfn
    · exact absurd hfn (by simp)
    · next hrel =>
      rw [Option.some_inj] at hfn
      rw [← hfn]
      dsimp only
      set relevant := (s.active_playbooks.map (fun p => p.2)).filter
        (fun pb => pb.playbook_type == pt) with hrelv
      set completedPbs := relevant.filter (fun pb => pb.status == "completed")
        with hcompl
      set successfulPbs := completedPbs.filter (fun pb =>
        truthyOpt pb.current_health_score && truthyOpt pb.baseline_health_score &&
          decide (pb.baseline_health_score.getD 0 < pb.current_health_score.getD 0))
        with hsucc
      have hsc : successfulPbs.length ≤ completedPbs.length :=
        List.length_filter_le _ _
      have hct : completedPbs.length ≤ relevant.length :=
        List.length_filter_le _ _
      refine ⟨hsc, hct, ?_, ?_, ?_⟩
      · intro hzero
        have : completedPbs.isEmpty = true := by
          rw [List.isEmpty_iff_length_eq_zero]
          exact hzero
        rw [if_pos this]
      · intro hnz
        have : completedPbs.isEmpty = false := by
          rcases hE : completedPbs.isEmpty with _ | _
          · rfl
          · exact absurd (List.isEmpty_iff_length_eq_zero.1 hE) hnz
        rw [if_neg (by rw [this]; exact fun hc => absurd hc (by simp))]
      · by_cases hE : completedPbs.isEmpty = true
        · rw [if_pos hE]
          norm_num
        · rw [if_neg hE]
          have hnz : completedPbs.length ≠ 0 := by
            intro h0
            exact hE (List.isEmpty_iff_length_eq_zero.2 h0)
          have hpos : (0:ℚ) < (completedPbs.length : ℚ) := by
            have := Nat.pos_of_ne_zero hnz
            exact_mod_cast this
          constructor
          · positivity
          · rw [div_le_one hpos]
            exact_mod_cast hsc

/-- C9 witness: the amended average formula instantiated at the concrete
report state. -/
theorem C9_witness :
    (generate_recovery_report sC9 none 0).recovery_metrics.average_health_improvement =
      pyRound2 (
        if (customerImprovements (selectedCustomers sC9 none)).isEmpty then 0
        else (customerImprovements (selectedCustomers sC9 none)).sum /
          ((customerImprovements (selectedCustomers sC9 none)).length : ℚ)) :=
  (C9_report_amended sC9 none 0).1

end HealthScoring
